import Mathlib

/-!
# Verification of the teach-gpt podcast job pipeline

Shallow embedding of the podcast-generation job pipeline:

* `apps/server/src/db/schema.ts` — status and option enums, job record shape;
* `apps/server/src/podcast/podcast-job-helper.service.ts` — in-memory
  per-job segment storage (`initializeJobStorage`, `storeSegmentAudio`,
  `retrieveJobAudioBuffers`, `cleanupJobData`), `failJob`;
* `apps/server/src/podcast/podcast.service.ts` — job creation and the
  status query `getPodcastJobStatus`;
* the event listeners (`podcast-requested.listener.ts`,
  `PodcastScrapedListener`, `podcast-content-generated.listener.ts`,
  `SegmentAudioRequestedListener`, `AllAudioGeneratedListener`) — modelled
  as atomic handlers of a single-job event system with nondeterministic
  collaborator and database outcomes supplied by an `Oracle`.

Buffers are byte lists; `Buffer.concat` is list join; JavaScript `Set` is
`Finset Nat`; the numeric-index object map of `TempAudioStorage` is an
association list where a later store shadows an earlier one.
-/

namespace TeachGpt

/-- Equality of fallible results is decidable, so concrete runs can be
checked by evaluation. -/
instance {ε α : Type} [DecidableEq ε] [DecidableEq α] :
    DecidableEq (Except ε α)
  | .error e, .error f => decidable_of_iff (e = f) (by simp)
  | .error _, .ok _ => .isFalse (by simp)
  | .ok _, .error _ => .isFalse (by simp)
  | .ok x, .ok y => decidable_of_iff (x = y) (by simp)

/-- Job status enum, `podcastStatusEnum` in `db/schema.ts`.  The source
value `GENERATING_AUDIO` is spelled `GENERATING_AUDIO_STAGE` here; all
other values keep their source names. -/
inductive PodcastStatus
  | PENDING
  | SCRAPING
  | GENERATING_CONTENT
  | GENERATING_AUDIO_STAGE
  | STITCHING
  | COMPLETED
  | FAILED
deriving DecidableEq, Repr

/-- Deep dive option enum, `deepDiveOptionEnum` in `db/schema.ts`. -/
inductive DeepDiveOption
  | CONDENSE
  | RETAIN
  | EXPAND
deriving DecidableEq, Repr

/-- A Node `Buffer`, abstracted to its byte list. -/
abbrev Buffer := List Nat

/-- One dialogue turn, element of `LlmDialogue.segments`
(`interfaces/podcast.interface.ts`). -/
structure DialogueSegment where
  speaker : String
  text : String
deriving DecidableEq, Repr

/-- Runtime shape of the dialogue structure returned by the LLM.  The
TypeScript interface declares `segments` as required, but the service layer
performs no structural validation beyond "is a non-null object"
(`llm.service.ts`, `generateJsonResponse`), so at runtime the field can be
absent; `none` models an absent field. -/
structure LlmDialogue where
  segments : Option (List DialogueSegment)
deriving DecidableEq, Repr

/-- Runtime shape of the summary returned by the LLM; only the fields the
pipeline reads are modelled, each possibly absent at runtime. -/
structure LlmSummary where
  title : Option String
  summaryText : Option String
deriving DecidableEq, Repr

/-- `jobMetadata` JSONB payload written by the content-generated listener. -/
structure JobMetadata where
  segmentCount : Nat
deriving DecidableEq, Repr

/-- One row of the `podcasts` table (`db/schema.ts`), timestamps omitted. -/
structure PodcastRecord where
  id : Nat
  userId : Nat
  url : String
  deepDiveOption : DeepDiveOption
  status : PodcastStatus
  errorMessage : Option String
  errorStep : Option PodcastStatus
  title : Option String
  summary : Option LlmSummary
  transcript : Option LlmDialogue
  audioUrl : Option String
  jobMetadata : Option JobMetadata
deriving DecidableEq, Repr

/-! ## Temporary audio storage (`podcast-job-helper.service.ts`, lines 13-120)

`TempAudioStorage` maps a job id to an object holding numeric-index buffer
entries plus `_completedSegments : Set<number>` and
`_totalSegments?: number`.  All claims concern a single job, so the state is
the `Option` of that job's entry (`none` = no entry for the job). -/

/-- The per-job entry of `TempAudioStorage`.  `segs` is the numeric-index
part of the object: an association list whose most recent entry for an
index shadows older ones (JavaScript property assignment overwrites). -/
structure JobStorage where
  segs : List (Nat × Buffer)
  completedSegments : Finset Nat
  totalSegments : Option Nat
deriving DecidableEq

/-- `initializeJobStorage` (lines 36-49): fresh entry with an empty
completed set and the expected total. -/
def initializeJobStorage (totalSegments : Nat) : JobStorage :=
  { segs := [], completedSegments := ∅, totalSegments := some totalSegments }

/-- `storeSegmentAudio` (lines 55-82).  If the job has no storage entry it
logs a warning and returns `false` without recording anything.  Otherwise it
assigns the buffer at the index, adds the index to `_completedSegments`, and
returns whether the completed-set size equals `_totalSegments` (strict
triple-equals against a possibly-undefined total: `undefined` compares
unequal to every number). -/
def storeSegmentAudio (st : Option JobStorage) (segmentIndex : Nat)
    (buffer : Buffer) : Option JobStorage × Bool :=
  match st with
  | none => (none, false)
  | some jobStorage =>
    let jobStorage' : JobStorage :=
      { jobStorage with
        segs := (segmentIndex, buffer) :: jobStorage.segs
        completedSegments := insert segmentIndex jobStorage.completedSegments }
    (some jobStorage',
      match jobStorage'.totalSegments with
      | some t => decide (jobStorage'.completedSegments.card = t)
      | none => false)

/-- The retrieval loop of `retrieveJobAudioBuffers` (lines 103-115): walk
the index list in order, stopping at the first index with no stored
buffer. -/
def collectBuffers (segs : List (Nat × Buffer)) :
    List Nat → Except String (List Buffer)
  | [] => .ok []
  | i :: rest =>
    match segs.lookup i with
    | some buffer => (collectBuffers segs rest).map fun bs => buffer :: bs
    | none => .error "Missing audio buffer for segment."

/-- `retrieveJobAudioBuffers` (lines 88-120): errors when the entry is
missing, when the completed-set size differs from the total (`?? 0` for an
undefined total), or when any index in `[0, total)` has no buffer;
otherwise returns the buffers for indices `0, 1, …, total-1` in order. -/
def retrieveJobAudioBuffers (st : Option JobStorage) :
    Except String (List Buffer) :=
  match st with
  | none => .error "Temporary storage not found during retrieval."
  | some jobStorage =>
    let totalSegments := jobStorage.totalSegments.getD 0
    if jobStorage.completedSegments.card ≠ totalSegments then
      .error "Attempting to retrieve buffers for incomplete job."
    else
      collectBuffers jobStorage.segs (List.range totalSegments)

/-- `cleanupJobData` (lines 238-244): deletes the job's entry. -/
def cleanupJobData (_st : Option JobStorage) : Option JobStorage := none

/-- `Buffer.concat` as used by `AllAudioGeneratedListener`
(`handleAllAudioGenerated`, stitching placeholder): ordered byte join. -/
def stitchAudioSegments (buffers : List Buffer) : Buffer := buffers.flatten

/-- Replay a sequence of `storeSegmentAudio` calls for one job, collecting
each call's boolean result in order. -/
def runCalls (st : Option JobStorage) (calls : List (Nat × Buffer)) :
    Option JobStorage × List Bool :=
  match calls with
  | [] => (st, [])
  | (i, b) :: rest =>
    let r := storeSegmentAudio st i b
    let rs := runCalls r.1 rest
    (rs.1, r.2 :: rs.2)

example :
    (runCalls (some (initializeJobStorage 2)) [(0, [1]), (1, [2])]).2 =
      [false, true] := by decide

example :
    (runCalls (some (initializeJobStorage 1)) [(0, [1]), (0, [1])]).2 =
      [true, true] := by decide

example : (storeSegmentAudio none 0 [1, 2]).1 = none := by decide

/-! ## Lemmas about the storage functions -/

theorem runCalls_cons (st : Option JobStorage) (i : Nat) (b : Buffer)
    (rest : List (Nat × Buffer)) :
    runCalls st ((i, b) :: rest) =
      ((runCalls (storeSegmentAudio st i b).1 rest).1,
        (storeSegmentAudio st i b).2 ::
          (runCalls (storeSegmentAudio st i b).1 rest).2) := rfl

/-- What one successful store does to an existing entry. -/
theorem storeSegmentAudio_some (js : JobStorage) (i : Nat) (b : Buffer) :
    storeSegmentAudio (some js) i b =
      (some { js with
          segs := (i, b) :: js.segs
          completedSegments := insert i js.completedSegments },
        match js.totalSegments with
        | some t => decide ((insert i js.completedSegments).card = t)
        | none => false) := rfl

theorem runCalls_results (N : Nat) (js : JobStorage) (c : Nat)
    (calls : List (Nat × Buffer))
    (htot : js.totalSegments = some N)
    (hcard : js.completedSegments.card = c)
    (hnodup : (calls.map Prod.fst).Nodup)
    (hdisj : ∀ p ∈ calls, p.1 ∉ js.completedSegments) :
    (runCalls (some js) calls).2 =
      (List.range calls.length).map fun k => decide (c + (k + 1) = N) := by
  induction calls generalizing js c with
  | nil => simp [runCalls]
  | cons p rest ih =>
    obtain ⟨i, b⟩ := p
    obtain ⟨segs0, comp0, tot0⟩ := js
    simp only at htot hcard hdisj
    subst htot
    simp only [List.map_cons, List.nodup_cons] at hnodup
    have hi : i ∉ comp0 := hdisj (i, b) (by simp)
    have hcard' : (insert i comp0).card = c + 1 := by
      rw [Finset.card_insert_of_not_mem hi, hcard]
    have hrest :
        (runCalls
          (some ⟨(i, b) :: segs0, insert i comp0, some N⟩) rest).2 =
        (List.range rest.length).map fun k => decide (c + 1 + (k + 1) = N) := by
      refine ih _ _ rfl hcard' hnodup.2 ?_
      intro q hq
      simp only [Finset.mem_insert, not_or]
      refine ⟨?_, hdisj q (by simp [hq])⟩
      intro hqi
      exact hnodup.1 (hqi ▸ List.mem_map_of_mem Prod.fst hq)
    rw [runCalls_cons, storeSegmentAudio_some]
    simp only [hcard', List.length_cons,
      List.range_succ_eq_map, List.map_cons, List.map_map]
    rw [List.cons_eq_cons]
    constructor
    · rw [decide_eq_decide]
      try omega
    · rw [hrest]
      refine List.map_congr_left ?_
      intro k _
      simp only [Function.comp_apply]
      rw [decide_eq_decide]
      omega

theorem countP_range_target (N m : Nat) (hN : 1 ≤ N) :
    ((List.range m).countP fun k => decide (k + 1 = N)) =
      if N ≤ m then 1 else 0 := by
  induction m with
  | zero =>
    simp only [List.range_zero, List.countP_nil]
    split_ifs with h
    · omega
    · rfl
  | succ n ih =>
    rw [List.range_succ, List.countP_append, ih, List.countP_cons,
      List.countP_nil]
    simp only [decide_eq_true_eq, Nat.zero_add]
    split_ifs <;> omega

/-- Looking up a key stored by mapping it to a pair always finds its value. -/
theorem lookup_map_self (b : Nat → Buffer) (l : List Nat) (i : Nat)
    (h : i ∈ l) (tail : List (Nat × Buffer)) :
    ((l.map fun j => (j, b j)) ++ tail).lookup i = some (b i) := by
  induction l with
  | nil => cases h
  | cons j rest ih =>
    by_cases hij : i = j
    · subst hij
      simp [List.lookup]
    · have hb : (i == j) = false := beq_eq_false_iff_ne.mpr hij
      have hmem : i ∈ rest := by
        rcases List.mem_cons.mp h with h1 | h1
        · exact absurd h1 hij
        · exact h1
      simp only [List.map_cons, List.cons_append, List.lookup, hb]
      exact ih hmem

theorem runCalls_state (b : Nat → Buffer) (order : List Nat)
    (js : JobStorage) :
    (runCalls (some js) (order.map fun i => (i, b i))).1 =
      some { js with
        segs := (order.reverse.map fun i => (i, b i)) ++ js.segs
        completedSegments := js.completedSegments ∪ order.toFinset } := by
  induction order generalizing js with
  | nil => simp [runCalls]
  | cons i rest ih =>
    rw [List.map_cons, runCalls_cons, storeSegmentAudio_some]
    rw [ih]
    simp [Finset.union_insert, Finset.insert_union, List.append_assoc]

theorem collectBuffers_ok (segs : List (Nat × Buffer)) (g : Nat → Buffer)
    (l : List Nat) (h : ∀ i ∈ l, segs.lookup i = some (g i)) :
    collectBuffers segs l = .ok (l.map g) := by
  induction l with
  | nil => rfl
  | cons i rest ih =>
    have hi : segs.lookup i = some (g i) := h i (by simp)
    have hrest : collectBuffers segs rest = .ok (rest.map g) :=
      ih fun x hx => h x (by simp [hx])
    simp [collectBuffers, hi, hrest, Except.map]

/-! ## Claim C1: exactly-once fan-in -/

/-- C1 (amended).  For a job initialized with `N` expected segments and a
call sequence whose indices lie in `[0, N)` and are **pairwise distinct**
(the fan-out emits each index exactly once), the `k`-th
`storeSegmentAudio` call returns `true` exactly when it is the `N`-th
distinct completion, so exactly one call returns `true` when all `N`
indices arrive, and none earlier.  The distinctness restriction is forced
by `c1_counterexample`: a duplicate delivery after completion makes a
second call return `true`, so the claim as stated (over *any* sequence
with indices in `[0, N)`) fails. -/
theorem c1_fan_in_exactly_once (N : Nat) (calls : List (Nat × Buffer))
    (hN : 1 ≤ N)
    (hnodup : (calls.map Prod.fst).Nodup) :
    (runCalls (some (initializeJobStorage N)) calls).2 =
      ((List.range calls.length).map fun k => decide (k + 1 = N)) ∧
    ((runCalls (some (initializeJobStorage N)) calls).2.count true =
      if N ≤ calls.length then 1 else 0) := by
  have he :
      (runCalls (some (initializeJobStorage N)) calls).2 =
        (List.range calls.length).map fun k => decide (k + 1 = N) := by
    rw [runCalls_results N (initializeJobStorage N) 0 calls rfl rfl hnodup
      (by intro p _; simp [initializeJobStorage])]
    refine List.map_congr_left ?_
    intro k _
    rw [decide_eq_decide]
    omega
  refine ⟨he, ?_⟩
  rw [he, List.count, List.countP_map]
  have hc :
      ((List.range calls.length).countP
        ((fun x => x == true) ∘ fun k => decide (k + 1 = N))) =
      ((List.range calls.length).countP fun k => decide (k + 1 = N)) := by
    refine List.countP_congr ?_
    intro k _
    simp [Function.comp]
  rw [hc, countP_range_target N calls.length hN]

/-- C1 counterexample to the claim as stated: with `N = 1` and the call
sequence `[(0, b), (0, b)]`, whose indices all lie in `[0, 1)`, both calls
return `true` — `allComplete` fires twice, because a duplicate delivery
after the completed set already has size `N` still satisfies
`size === total`. -/
theorem c1_counterexample :
    1 ≤ 1 ∧
    (∀ p ∈ ([(0, [5]), (0, [5])] : List (Nat × Buffer)), p.1 < 1) ∧
    (runCalls (some (initializeJobStorage 1)) [(0, [5]), (0, [5])]).2 =
      [true, true] ∧
    (runCalls (some (initializeJobStorage 1)) [(0, [5]), (0, [5])]).2.count
        true ≠ 1 := by decide

/-- C1 witness: the amended theorem applied to a concrete two-segment job
whose segments arrive in order. -/
theorem c1_fan_in_exactly_once_witness :
    (runCalls (some (initializeJobStorage 2)) [(0, [1]), (1, [2])]).2 =
      ((List.range 2).map fun k => decide (k + 1 = 2)) ∧
    ((runCalls (some (initializeJobStorage 2)) [(0, [1]), (1, [2])]).2.count
        true = if 2 ≤ 2 then 1 else 0) :=
  c1_fan_in_exactly_once 2 [(0, [1]), (1, [2])] (by decide) (by decide)

/-! ## Claim C6: no lazy tracker initialization -/

/-- C6 (amended).  `storeSegmentAudio` does **not** lazily initialize
tracker state: the entry is created eagerly by `initializeJobStorage` in
the content-generated listener, and a segment completion arriving for a
job with no existing entry is dropped — the call returns `false` and
records nothing (it never consults the job store for owner identity).
When an entry exists, the call inserts the bytes at the index, adds the
index to the completed set, and returns `true` iff the completed-set size
now equals the expected total. -/
theorem c6_store_requires_initialized_entry (js : JobStorage) (i : Nat)
    (b : Buffer) :
    let jsNew : JobStorage :=
      { js with segs := (i, b) :: js.segs
                completedSegments := insert i js.completedSegments }
    storeSegmentAudio none i b = (none, false) ∧
    (storeSegmentAudio (some js) i b).1 = some jsNew ∧
    jsNew.segs.lookup i = some b ∧
    i ∈ jsNew.completedSegments ∧
    ((storeSegmentAudio (some js) i b).2 = true ↔
      js.totalSegments = some jsNew.completedSegments.card) := by
  refine ⟨rfl, rfl, by simp [List.lookup], Finset.mem_insert_self i _, ?_⟩
  rw [storeSegmentAudio_some]
  cases htot : js.totalSegments with
  | none => simp
  | some t => simp [eq_comm]

/-- C6 counterexample to the claim as stated: a completion for a job with
no tracker entry is *not* recorded — the state stays `none`, the call
returns `false`, and a subsequent retrieval still finds no storage. -/
theorem c6_counterexample :
    (storeSegmentAudio none 0 [7]).1 = none ∧
    (storeSegmentAudio none 0 [7]).2 = false ∧
    retrieveJobAudioBuffers (storeSegmentAudio none 0 [7]).1 =
      .error "Temporary storage not found during retrieval." := by decide

/-! ## Claim C7: order-independent ordered reassembly -/

/-- C7.  If the `N` segment completions arrive in any order (any
permutation of `0, …, N-1`, segment `i` carrying buffer `b i`), then
`retrieveJobAudioBuffers` returns the buffers for indices `0, …, N-1` in
index order, and the assembled audio is their concatenation in dialogue
order. -/
theorem c7_assembly_preserves_dialogue_order (N : Nat) (order : List Nat)
    (b : Nat → Buffer) (hperm : order.Perm (List.range N)) :
    retrieveJobAudioBuffers
        (runCalls (some (initializeJobStorage N))
          (order.map fun i => (i, b i))).1 =
      .ok ((List.range N).map b) ∧
    (retrieveJobAudioBuffers
        (runCalls (some (initializeJobStorage N))
          (order.map fun i => (i, b i))).1).map stitchAudioSegments =
      .ok (((List.range N).map b).flatten) := by
  have hstate := runCalls_state b order (initializeJobStorage N)
  have hfin : order.toFinset = Finset.range N := by
    ext j
    simp [List.mem_toFinset, hperm.mem_iff, Finset.mem_range]
  have hmain :
      retrieveJobAudioBuffers
        (runCalls (some (initializeJobStorage N))
          (order.map fun i => (i, b i))).1 =
      .ok ((List.range N).map b) := by
    rw [hstate]
    simp only [retrieveJobAudioBuffers, initializeJobStorage,
      Finset.empty_union, hfin, Finset.card_range, Option.getD_some]
    rw [if_neg (by simp)]
    refine collectBuffers_ok _ b _ ?_
    intro j hj
    refine lookup_map_self b order.reverse j ?_ []
    rw [List.mem_reverse]
    rw [hperm.mem_iff]
    simpa using hj
  exact ⟨hmain, by rw [hmain]; rfl⟩

/-- C7 witness: three segments with segment 1 finishing last (arrival
order 0, 2, 1); the assembled bytes equal segment0 ++ segment1 ++
segment2. -/
theorem c7_assembly_preserves_dialogue_order_witness :
    retrieveJobAudioBuffers
        (runCalls (some (initializeJobStorage 3))
          ([0, 2, 1].map fun i => (i, [i + 10]))).1 =
      .ok ((List.range 3).map fun i => [i + 10]) ∧
    (retrieveJobAudioBuffers
        (runCalls (some (initializeJobStorage 3))
          ([0, 2, 1].map fun i => (i, [i + 10]))).1).map
        stitchAudioSegments =
      .ok (((List.range 3).map fun i => [i + 10]).flatten) :=
  c7_assembly_preserves_dialogue_order 3 [0, 2, 1] (fun i => [i + 10])
    (by decide)

example :
    (retrieveJobAudioBuffers
        (runCalls (some (initializeJobStorage 3))
          ([0, 2, 1].map fun i => (i, [i + 10]))).1).map
        stitchAudioSegments = .ok [10, 11, 12] := by decide

/-! ## Events and the failure path -/

/-- The internal event bus messages (`interfaces/podcast.interface.ts`,
event payload section), specialised to the fields the pipeline reads. -/
inductive Event
  | requested (jobId : Nat) (url : String) (userId : Nat)
      (deepDiveOption : DeepDiveOption)
  | scraped (jobId : Nat) (title : String) (bodyText : String)
      (userId : Nat) (deepDiveOption : DeepDiveOption)
  | contentGenerated (jobId : Nat) (summary : LlmSummary)
      (dialogue : LlmDialogue) (userId : Nat)
  | segmentAudioRequested (jobId : Nat) (segmentIndex : Nat)
      (segmentText : String) (segmentSpeaker : String)
      (totalSegments : Nat) (userId : Nat)
  | segmentAudioGenerated (jobId : Nat) (segmentIndex : Nat)
      (totalSegments : Nat)
  | allAudioGenerated (jobId : Nat) (userId : Nat)
  | completed (jobId : Nat) (finalRecord : PodcastRecord)
  | failed (jobId : Nat) (failedStep : PodcastStatus)
      (errorMessage : String)
deriving DecidableEq, Repr

/-- `errorMessage.substring(0, 1000)` in `failJob`: keep the first 1000
characters. -/
def truncateMessage (s : String) : String := ⟨s.data.take 1000⟩

/-- `failJob` (`podcast-job-helper.service.ts`, lines 194-233).  `dbOk`
is the outcome of the `UPDATE … SET status = FAILED` write.  On success
the record persists `FAILED`, the failed step, and the truncated message,
and the `podcast.failed` event (carrying the untruncated message) is
emitted; if the write throws, the `catch` only logs — the emit, placed
after the write inside the `try`, is skipped.  The `finally` block runs
`cleanupJobData` on every path. -/
def failJob (dbOk : Bool) (jobId : Nat) (failedStep : PodcastStatus)
    (errorMessage : String) (record : PodcastRecord)
    (tracker : Option JobStorage) :
    PodcastRecord × Option JobStorage × List Event :=
  if dbOk then
    ({ record with
        status := .FAILED
        errorStep := some failedStep
        errorMessage := some (truncateMessage errorMessage) },
      cleanupJobData tracker,
      [.failed jobId failedStep errorMessage])
  else
    (record, cleanupJobData tracker, [])

/-! ## Claim C3: the failure path persists, publishes and cleans up -/

/-- C3.  `failJob` always deletes the job's transient tracker state — on
the success path and equally when the persistence write throws — and when
the write succeeds it persists `status = FAILED`, `errorStep` equal to the
failed step, the message truncated to at most 1000 characters, and
publishes the terminal `podcast.failed` event. -/
theorem c3_failJob_persists_and_cleans (dbOk : Bool) (jobId : Nat)
    (failedStep : PodcastStatus) (msg : String) (record : PodcastRecord)
    (tracker : Option JobStorage) :
    (failJob dbOk jobId failedStep msg record tracker).2.1 = none ∧
    (dbOk = true →
      (failJob dbOk jobId failedStep msg record tracker).1.status =
          .FAILED ∧
      (failJob dbOk jobId failedStep msg record tracker).1.errorStep =
          some failedStep ∧
      (failJob dbOk jobId failedStep msg record tracker).1.errorMessage =
          some (truncateMessage msg) ∧
      (truncateMessage msg).length ≤ 1000 ∧
      (failJob dbOk jobId failedStep msg record tracker).2.2 =
          [.failed jobId failedStep msg]) := by
  have hlen : (truncateMessage msg).length ≤ 1000 := by
    show (msg.data.take 1000).length ≤ 1000
    rw [List.length_take]
    exact min_le_left _ _
  cases dbOk with
  | false => simp [failJob, cleanupJobData]
  | true => simp [failJob, cleanupJobData, hlen]

/-- A sample job record for concrete instantiations. -/
def sampleRecord : PodcastRecord :=
  { id := 1, userId := 42, url := "https://example.com/article",
    deepDiveOption := .RETAIN, status := .GENERATING_AUDIO_STAGE,
    errorMessage := none, errorStep := none, title := none,
    summary := none, transcript := none, audioUrl := none,
    jobMetadata := none }

/-- C3 witness: the theorem at a concrete failing job whose write
succeeds. -/
theorem c3_failJob_persists_and_cleans_witness :
    (failJob true 1 .GENERATING_AUDIO_STAGE "boom" sampleRecord
        (some (initializeJobStorage 2))).2.1 = none ∧
    (true = true →
      (failJob true 1 .GENERATING_AUDIO_STAGE "boom" sampleRecord
          (some (initializeJobStorage 2))).1.status = .FAILED ∧
      (failJob true 1 .GENERATING_AUDIO_STAGE "boom" sampleRecord
          (some (initializeJobStorage 2))).1.errorStep =
          some .GENERATING_AUDIO_STAGE ∧
      (failJob true 1 .GENERATING_AUDIO_STAGE "boom" sampleRecord
          (some (initializeJobStorage 2))).1.errorMessage =
          some (truncateMessage "boom") ∧
      (truncateMessage "boom").length ≤ 1000 ∧
      (failJob true 1 .GENERATING_AUDIO_STAGE "boom" sampleRecord
          (some (initializeJobStorage 2))).2.2 =
          [.failed 1 .GENERATING_AUDIO_STAGE "boom"]) :=
  c3_failJob_persists_and_cleans true 1 .GENERATING_AUDIO_STAGE "boom"
    sampleRecord (some (initializeJobStorage 2))

/-! ## Claim C9: a failed FAILED-write suppresses the terminal event -/

/-- C9.  If the database write inside `failJob` throws, the terminal
`podcast.failed` event is never emitted (the emit sits after the write in
the same `try` block), the record is left unchanged, and the transient
tracker state is still cleaned up by the `finally`. -/
theorem c9_failed_write_suppresses_terminal_event (jobId : Nat)
    (failedStep : PodcastStatus) (msg : String) (record : PodcastRecord)
    (tracker : Option JobStorage) :
    failJob false jobId failedStep msg record tracker =
      (record, none, []) := by
  simp [failJob, cleanupJobData]

/-! ## Claim C8: status query and ownership -/

/-- The nested `PodcastResultDto` of `podcast-status-response.dto.ts`,
timestamps omitted. -/
structure PodcastResult where
  id : Nat
  userId : Nat
  url : String
  deepDiveOption : DeepDiveOption
  status : PodcastStatus
  title : Option String
  summary : Option LlmSummary
  transcript : Option LlmDialogue
  audioUrl : Option String
  jobMetadata : Option JobMetadata
deriving DecidableEq, Repr

/-- `PodcastStatusResponseDto`, timestamps omitted. -/
structure PodcastStatusResponse where
  jobId : Nat
  status : PodcastStatus
  errorMessage : Option String
  errorStep : Option PodcastStatus
  result : Option PodcastResult
deriving DecidableEq, Repr

/-- `getPodcastJobStatus` (`podcast.service.ts`, lines 95-156).  The
database is the list of job rows; `findFirst` is the first row with the
queried id.  A missing job and a job owned by a different user both throw
`NotFoundException` with the same message (modelled as `Except.error`);
an owned job returns the status view whose `result` is populated exactly
when the status is `COMPLETED`. -/
def getPodcastJobStatus (db : List PodcastRecord) (jobId userId : Nat) :
    Except String PodcastStatusResponse :=
  match db.find? fun j => j.id == jobId with
  | none => .error s!"Podcast job with ID {jobId} not found."
  | some job =>
    if job.userId ≠ userId then
      .error s!"Podcast job with ID {jobId} not found."
    else
      .ok { jobId := job.id
            status := job.status
            errorMessage := job.errorMessage
            errorStep := job.errorStep
            result :=
              if job.status = .COMPLETED then
                some { id := job.id, userId := job.userId, url := job.url,
                       deepDiveOption := job.deepDiveOption,
                       status := job.status, title := job.title,
                       summary := job.summary, transcript := job.transcript,
                       audioUrl := job.audioUrl,
                       jobMetadata := job.jobMetadata }
              else none }

/-- C8.  The status query returns the *same* NotFound error when no job
with the id exists and when the job belongs to a different owner, so the
two cases are observationally indistinguishable; for an owned job it
returns the status view, whose `result` field is populated exactly when
the status is `COMPLETED`. -/
theorem c8_status_query_ownership (db : List PodcastRecord)
    (jobId callerId : Nat) :
    ((db.find? fun j => j.id == jobId) = none →
      getPodcastJobStatus db jobId callerId =
        .error s!"Podcast job with ID {jobId} not found.") ∧
    (∀ job, (db.find? fun j => j.id == jobId) = some job →
      job.userId ≠ callerId →
      getPodcastJobStatus db jobId callerId =
        .error s!"Podcast job with ID {jobId} not found.") ∧
    (∀ job, (db.find? fun j => j.id == jobId) = some job →
      job.userId = callerId →
      ∃ view, getPodcastJobStatus db jobId callerId = .ok view ∧
        view.jobId = job.id ∧
        view.status = job.status ∧
        view.errorMessage = job.errorMessage ∧
        view.errorStep = job.errorStep ∧
        (view.result.isSome ↔ job.status = .COMPLETED)) := by
  refine ⟨?_, ?_, ?_⟩
  · intro h
    simp [getPodcastJobStatus, h]
  · intro job hfind howner
    simp [getPodcastJobStatus, hfind, howner]
  · intro job hfind howner
    simp only [getPodcastJobStatus, hfind]
    rw [if_neg (by simp [howner])]
    refine ⟨_, rfl, rfl, rfl, rfl, rfl, ?_⟩
    by_cases hc : job.status = .COMPLETED <;> simp [hc]

/-- A completed job row owned by user 42, for the status-query witness. -/
def rec1 : PodcastRecord :=
  { sampleRecord with
      id := 1
      userId := 42
      status := .COMPLETED
      audioUrl := some "https://fake-storage.com/user-42/podcast-1.mp3" }

/-- Sample rows for the status-query witness. -/
def dbSample : List PodcastRecord := [rec1]

/-- C8 witness: one concrete database; a missing id and a foreign owner
produce the identical error, and the owner sees a view with the result
populated. -/
theorem c8_status_query_ownership_witness :
    getPodcastJobStatus dbSample 99 42 =
      .error "Podcast job with ID 99 not found." ∧
    getPodcastJobStatus dbSample 1 7 =
      .error "Podcast job with ID 1 not found." ∧
    (∃ view, getPodcastJobStatus dbSample 1 42 = .ok view ∧
      view.jobId = rec1.id ∧
      view.status = rec1.status ∧
      view.errorMessage = rec1.errorMessage ∧
      view.errorStep = rec1.errorStep ∧
      (view.result.isSome ↔ rec1.status = .COMPLETED)) := by
  have h := c8_status_query_ownership dbSample
  exact ⟨(h 99 42).1 rfl, (h 1 7).2.1 rec1 rfl (by decide),
    (h 1 42).2.2 rec1 rfl rfl⟩

/-! ## The single-job event system

Each listener is an atomic handler; collaborator and database outcomes
are supplied by an `Oracle`.  The whole pipeline concerns one job, so the
state is that job's row, its tracker entry, the pending event queue, and
the history of emitted events. -/

/-- Nondeterministic outcomes of one handler execution: each database
write either succeeds or throws, each collaborator call either returns a
value or throws (`none`). -/
structure Oracle where
  /-- outcome of the handler's first `updateJobStatus` write -/
  dbOk1 : Bool
  /-- outcome of the handler's second database write, where present -/
  dbOk2 : Bool
  /-- outcome of the `FAILED` write inside `failJob` -/
  failDbOk : Bool
  /-- `scrapeUrl`: `(title?, content)`, or a throw -/
  scrape : Option (Option String × String)
  /-- `Promise.all` of the two `generateJsonResponse` calls -/
  llm : Option (LlmSummary × LlmDialogue)
  /-- `generateSpeech` for the one segment -/
  tts : Option Buffer
  /-- `getJobUserId`: `none` when the row is missing or the lookup errors -/
  userIdLookup : Option Nat
  /-- `findFirst` in the zero-segment path: `none` = throw,
  `some found` = returned row present or absent -/
  fetchZero : Option Bool
  /-- `getJobRecord` in the assembly stage (`null` on missing or error) -/
  recFound : Bool
deriving DecidableEq, Repr

/-- One atomic handler execution: consume `e`, return the updated row,
the updated tracker entry, and the events emitted, mirroring
`PodcastRequestedListener`, `PodcastScrapedListener`,
`PodcastContentGeneratedListener`, `SegmentAudioRequestedListener`,
`AllAudioGeneratedListener`, and the logging-only
`SegmentAudioGeneratedListener`; `podcast.completed` and `podcast.failed`
have no pipeline listeners. -/
def handle (o : Oracle) (e : Event) (record : PodcastRecord)
    (tracker : Option JobStorage) :
    PodcastRecord × Option JobStorage × List Event :=
  match e with
  | .requested jobId _url userId ddo =>
    if o.dbOk1 then
      let record1 := { record with status := .SCRAPING }
      match o.scrape with
      | none =>
        failJob o.failDbOk jobId .SCRAPING "Scraping failed" record1 tracker
      | some (title, content) =>
        (record1, tracker,
          [.scraped jobId (title.getD "Untitled Podcast") content userId ddo])
    else
      failJob o.failDbOk jobId .SCRAPING "Scraping failed" record tracker
  | .scraped jobId title _bodyText userId _ddo =>
    if o.dbOk1 then
      let record1 := { record with status := .GENERATING_CONTENT }
      match o.llm with
      | none =>
        failJob o.failDbOk jobId .GENERATING_CONTENT
          "Content generation failed" record1 tracker
      | some (summaryResult, dialogueResult) =>
        if o.dbOk2 then
          let record2 := { record1 with
            title := some (summaryResult.title.getD title)
            summary := some summaryResult
            transcript := some dialogueResult }
          (record2, tracker,
            [.contentGenerated jobId summaryResult dialogueResult userId])
        else
          failJob o.failDbOk jobId .GENERATING_CONTENT
            "Content generation failed" record1 tracker
    else
      failJob o.failDbOk jobId .GENERATING_CONTENT
        "Content generation failed" record tracker
  | .contentGenerated jobId _summary dialogue userId =>
    let segments := dialogue.segments.getD []
    let totalSegments := segments.length
    if totalSegments = 0 then
      match o.fetchZero with
      | none =>
        failJob o.failDbOk jobId .GENERATING_AUDIO_STAGE
          "Audio generation setup failed" record tracker
      | some false => (record, tracker, [])
      | some true =>
        let final : PodcastRecord := { record with
          status := .COMPLETED
          audioUrl := none }
        ((if o.dbOk1 then final else record), tracker,
          [.completed jobId final])
    else
      if o.dbOk1 then
        let record1 := { record with
          status := .GENERATING_AUDIO_STAGE
          jobMetadata := some ⟨totalSegments⟩ }
        (record1, some (initializeJobStorage totalSegments),
          segments.enum.map fun p =>
            .segmentAudioRequested jobId p.1 p.2.text p.2.speaker
              totalSegments userId)
      else
        failJob o.failDbOk jobId .GENERATING_AUDIO_STAGE
          "Audio generation setup failed" record tracker
  | .segmentAudioRequested jobId segmentIndex _txt _spk totalSegments _uid =>
    match o.tts with
    | none =>
      failJob o.failDbOk jobId .GENERATING_AUDIO_STAGE
        "TTS generation failed" record tracker
    | some audioBuffer =>
      let stored := storeSegmentAudio tracker segmentIndex audioBuffer
      if stored.2 then
        match o.userIdLookup with
        | none =>
          (record, stored.1,
            [.segmentAudioGenerated jobId segmentIndex totalSegments])
        | some uid =>
          (record, stored.1,
            [.segmentAudioGenerated jobId segmentIndex totalSegments,
              .allAudioGenerated jobId uid])
      else
        (record, stored.1,
          [.segmentAudioGenerated jobId segmentIndex totalSegments])
  | .allAudioGenerated jobId userId =>
    if o.dbOk1 then
      let record1 := { record with status := .STITCHING }
      match retrieveJobAudioBuffers tracker with
      | .error _ =>
        failJob o.failDbOk jobId .STITCHING "Audio stitching failed"
          record1 tracker
      | .ok _audioBuffers =>
        if o.recFound then
          if o.dbOk2 then
            let record2 := { record1 with
              status := .COMPLETED
              audioUrl := some
                s!"https://fake-storage.com/user-{userId}/podcast-{jobId}.mp3" }
            (record2, cleanupJobData tracker, [.completed jobId record2])
          else
            failJob o.failDbOk jobId .STITCHING "Audio stitching failed"
              record1 tracker
        else
          failJob o.failDbOk jobId .STITCHING "Audio stitching failed"
            record1 tracker
    else
      failJob o.failDbOk jobId .STITCHING "Audio stitching failed"
        record tracker
  | .segmentAudioGenerated _ _ _ => (record, tracker, [])
  | .completed _ _ => (record, tracker, [])
  | .failed _ _ _ => (record, tracker, [])

/-- Global state of the single-job system. -/
structure Sys where
  record : PodcastRecord
  tracker : Option JobStorage
  queue : List Event
  emitted : List Event
deriving DecidableEq

/-- Execute one handler on event `e`, the rest of the queue being
`rest`: emitted events are appended to both queue and history. -/
def runHandler (o : Oracle) (e : Event) (s : Sys) (rest : List Event) :
    Sys :=
  let h := handle o e s.record s.tracker
  { record := h.1, tracker := h.2.1, queue := rest ++ h.2.2,
    emitted := s.emitted ++ h.2.2 }

/-- One system step: pick any pending event, run its handler under some
oracle. -/
inductive Step : Sys → Sys → Prop
  | handleEvent (o : Oracle) (l₁ l₂ : List Event) (e : Event) (s : Sys)
      (hq : s.queue = l₁ ++ e :: l₂) :
      Step s (runHandler o e s (l₁ ++ l₂))

/-- Reachability in zero or more steps. -/
def Reach : Sys → Sys → Prop := Relation.ReflTransGen Step

/-- The row inserted by `requestPodcastCreation`
(`podcast.service.ts`, lines 49-58). -/
def initRecord (jobId userId : Nat) (url : String)
    (ddo : DeepDiveOption) : PodcastRecord :=
  { id := jobId, userId := userId, url := url, deepDiveOption := ddo,
    status := .PENDING, errorMessage := none, errorStep := none,
    title := none, summary := none, transcript := none, audioUrl := none,
    jobMetadata := none }

/-- State right after `requestPodcastCreation`: a `PENDING` row and the
`podcast.requested` event. -/
def initSys (jobId userId : Nat) (url : String) (ddo : DeepDiveOption) :
    Sys :=
  { record := initRecord jobId userId url ddo
    tracker := none
    queue := [.requested jobId url userId ddo]
    emitted := [.requested jobId url userId ddo] }

/-! ## Classification of events and the system invariant -/

/-- Driver events: each one, when handled, can advance the job. -/
def isDriver : Event → Bool
  | .requested _ _ _ _ => true
  | .scraped _ _ _ _ _ => true
  | .contentGenerated _ _ _ _ => true
  | .allAudioGenerated _ _ => true
  | _ => false

/-- Sink events: their handlers (if any) only log; handling one changes
nothing. -/
def isSink : Event → Bool
  | .segmentAudioGenerated _ _ _ => true
  | .completed _ _ => true
  | .failed _ _ _ => true
  | _ => false

def isRequested : Event → Bool
  | .requested _ _ _ _ => true
  | _ => false

def isScraped : Event → Bool
  | .scraped _ _ _ _ _ => true
  | _ => false

def isContentGen : Event → Bool
  | .contentGenerated _ _ _ _ => true
  | _ => false

def isAllAudio : Event → Bool
  | .allAudioGenerated _ _ => true
  | _ => false

/-- The segment index of a pending `segmentAudioRequested` event. -/
def segReqIdx : Event → Option Nat
  | .segmentAudioRequested _ i _ _ _ _ => some i
  | _ => none

/-- Segment indices of all pending fan-out events, in queue order. -/
def segReqIdxs (q : List Event) : List Nat := q.filterMap segReqIdx

/-- Number of pending driver events. -/
def driverCount (q : List Event) : Nat := q.countP isDriver

/-- Bookkeeping tying a live tracker entry to the pending fan-out
events: the expected total is set, the pending indices are distinct,
in range, and not yet completed, and the completed set cannot overshoot
the total. -/
def TrkInv (st : JobStorage) (idxs : List Nat) : Prop :=
  st.totalSegments.isSome = true ∧
  idxs.Nodup ∧
  (∀ i ∈ idxs, i < st.totalSegments.getD 0 ∧ i ∉ st.completedSegments) ∧
  st.completedSegments ⊆ Finset.range (st.totalSegments.getD 0) ∧
  st.completedSegments.card + idxs.length ≤ st.totalSegments.getD 0

instance (st : JobStorage) (idxs : List Nat) : Decidable (TrkInv st idxs) := by
  unfold TrkInv
  infer_instance

/-- The tracker clause of the invariant, trivial when no entry exists. -/
def TrkOk (t : Option JobStorage) (idxs : List Nat) : Prop :=
  match t with
  | none => True
  | some st => TrkInv st idxs

instance (t : Option JobStorage) (idxs : List Nat) :
    Decidable (TrkOk t idxs) := by
  cases t with
  | none => exact .isTrue trivial
  | some st => exact inferInstanceAs (Decidable (TrkInv st idxs))

/-- Invariant of all reachable single-job states: pending driver events
match the persisted status, at most one driver is pending, a pending
fan-in trigger excludes pending fan-out events, terminal states have no
pending drivers, `FAILED` states have no tracker entry, `COMPLETED`
states no pending fan-out, and any live tracker entry satisfies the
fan-out bookkeeping. -/
def Inv (s : Sys) : Prop :=
  (s.queue.any isRequested = true → s.record.status = .PENDING) ∧
  (s.queue.any isScraped = true → s.record.status = .SCRAPING) ∧
  (s.queue.any isContentGen = true →
    s.record.status = .GENERATING_CONTENT) ∧
  (segReqIdxs s.queue ≠ [] →
    s.record.status = .GENERATING_AUDIO_STAGE ∨ s.record.status = .FAILED) ∧
  (s.queue.any isAllAudio = true →
    s.record.status = .GENERATING_AUDIO_STAGE ∧ segReqIdxs s.queue = []) ∧
  (s.record.status = .FAILED → s.tracker = none) ∧
  ((s.record.status = .COMPLETED ∨ s.record.status = .FAILED) →
    driverCount s.queue = 0) ∧
  (s.record.status = .COMPLETED → segReqIdxs s.queue = []) ∧
  driverCount s.queue ≤ 1 ∧
  TrkOk s.tracker (segReqIdxs s.queue)

instance (s : Sys) : Decidable (Inv s) := by
  unfold Inv
  infer_instance

/-- The freshly created job state satisfies the invariant. -/
theorem inv_init (jobId userId : Nat) (url : String)
    (ddo : DeepDiveOption) : Inv (initSys jobId userId url ddo) := by
  unfold Inv initSys initRecord
  refine ⟨?_, ?_, ?_, ?_, ?_, ?_, ?_, ?_, ?_, ?_⟩ <;>
    simp [isRequested, isScraped, isContentGen, isAllAudio, segReqIdxs,
      segReqIdx, driverCount, isDriver, TrkOk, List.countP_cons]

/-- Position in the forward chain (`FAILED` reachable from every
non-terminal state). -/
def statusIdx : PodcastStatus → Nat
  | .PENDING => 0
  | .SCRAPING => 1
  | .GENERATING_CONTENT => 2
  | .GENERATING_AUDIO_STAGE => 3
  | .STITCHING => 4
  | .COMPLETED => 5
  | .FAILED => 6

/-- One persisted-status change is legal: either unchanged, or the old
status is non-terminal and the new one lies strictly later in the chain
(`FAILED` being last, reachable from everything non-terminal). -/
def statusStepOk (a b : PodcastStatus) : Prop :=
  b = a ∨ (a ≠ .COMPLETED ∧ a ≠ .FAILED ∧ statusIdx a < statusIdx b)

instance (a b : PodcastStatus) : Decidable (statusStepOk a b) := by
  unfold statusStepOk
  infer_instance

/-- Every event is a driver, a fan-out request, or a sink. -/
theorem event_classification (e : Event) :
    isDriver e = true ∨ (segReqIdx e).isSome = true ∨ isSink e = true := by
  cases e <;> simp [isDriver, segReqIdx, isSink]

/-- Zero pending drivers means none of the four driver scanners fires. -/
theorem drivers_absent {q : List Event} (h : q.countP isDriver = 0) :
    q.any isRequested = false ∧ q.any isScraped = false ∧
    q.any isContentGen = false ∧ q.any isAllAudio = false := by
  rw [List.countP_eq_zero] at h
  refine ⟨?_, ?_, ?_, ?_⟩ <;>
    · rw [List.any_eq_false]
      intro e he hp
      refine h e he ?_
      cases e <;> simp_all [isRequested, isScraped, isContentGen,
        isAllAudio, isDriver]

theorem segReqIdxs_append (a b : List Event) :
    segReqIdxs (a ++ b) = segReqIdxs a ++ segReqIdxs b :=
  List.filterMap_append a b segReqIdx

theorem driverCount_append (a b : List Event) :
    driverCount (a ++ b) = driverCount a + driverCount b :=
  List.countP_append isDriver a b

theorem failJob_true (jobId : Nat) (step : PodcastStatus) (msg : String)
    (rec : PodcastRecord) (trk : Option JobStorage) :
    failJob true jobId step msg rec trk =
      ({ rec with
          status := .FAILED
          errorStep := some step
          errorMessage := some (truncateMessage msg) }, none,
        [.failed jobId step msg]) := by
  simp [failJob, cleanupJobData]

theorem failJob_false (jobId : Nat) (step : PodcastStatus) (msg : String)
    (rec : PodcastRecord) (trk : Option JobStorage) :
    failJob false jobId step msg rec trk = (rec, none, []) := by
  simp [failJob, cleanupJobData]

theorem any_mid (p : Event → Bool) (l₁ l₂ : List Event) (e : Event) :
    (l₁ ++ e :: l₂).any p = (p e || (l₁ ++ l₂).any p) := by
  simp only [List.any_append, List.any_cons]
  cases p e <;> cases l₁.any p <;> cases l₂.any p <;> rfl

theorem driverCount_mid (l₁ l₂ : List Event) (e : Event) :
    driverCount (l₁ ++ e :: l₂) =
      driverCount (l₁ ++ l₂) + (if isDriver e then 1 else 0) := by
  cases hd : isDriver e with
  | false =>
    simp [driverCount, List.countP_append, List.countP_cons, hd]
    try omega
  | true =>
    simp [driverCount, List.countP_append, List.countP_cons, hd]
    try omega

theorem rest_drivers {l₁ l₂ : List Event} {e : Event}
    (h : driverCount (l₁ ++ e :: l₂) ≤ 1) (he : isDriver e = true) :
    driverCount (l₁ ++ l₂) = 0 := by
  rw [driverCount_mid, he, if_pos rfl] at h
  omega

theorem segReqIdxs_mid_none {e : Event} (l₁ l₂ : List Event)
    (he : segReqIdx e = none) :
    segReqIdxs (l₁ ++ e :: l₂) = segReqIdxs (l₁ ++ l₂) := by
  simp [segReqIdxs, List.filterMap_append, List.filterMap_cons, he]

theorem segReqIdxs_mid_some {e : Event} {i : Nat} (l₁ l₂ : List Event)
    (he : segReqIdx e = some i) :
    segReqIdxs (l₁ ++ e :: l₂) = segReqIdxs l₁ ++ i :: segReqIdxs l₂ := by
  simp [segReqIdxs, List.filterMap_append, List.filterMap_cons, he]

/-- Four silent scanners mean zero pending drivers. -/
theorem driverCount_zero_of_absent {q : List Event}
    (h1 : q.any isRequested = false) (h2 : q.any isScraped = false)
    (h3 : q.any isContentGen = false) (h4 : q.any isAllAudio = false) :
    driverCount q = 0 := by
  rw [driverCount, List.countP_eq_zero]
  intro x hx
  rw [List.any_eq_false] at h1 h2 h3 h4
  intro hd
  cases x with
  | requested a b c d => have := h1 _ hx; simp [isRequested] at this
  | scraped a b c d f => have := h2 _ hx; simp [isScraped] at this
  | contentGenerated a b c d => have := h3 _ hx; simp [isContentGen] at this
  | allAudioGenerated a b => have := h4 _ hx; simp [isAllAudio] at this
  | segmentAudioRequested a b c d f g => simp [isDriver] at hd
  | segmentAudioGenerated a b c => simp [isDriver] at hd
  | completed a b => simp [isDriver] at hd
  | failed a b c => simp [isDriver] at hd

/-- Consuming one event while changing nothing else preserves the
invariant (used for sink events and the silent zero-segment return). -/
theorem inv_drop_event {s : Sys} {l₁ l₂ : List Event} {e : Event}
    (hinv : Inv s) (hq : s.queue = l₁ ++ e :: l₂) (E : List Event) :
    Inv { record := s.record, tracker := s.tracker, queue := l₁ ++ l₂,
          emitted := E } := by
  obtain ⟨h1, h2, h3, h4, h5, h6, h7, h8, h9, h10⟩ := hinv
  rw [hq] at h1 h2 h3 h4 h5 h7 h8 h9 h10
  refine ⟨?_, ?_, ?_, ?_, ?_, h6, ?_, ?_, ?_, ?_⟩
  · intro h
    exact h1 (by rw [any_mid, h, Bool.or_true])
  · intro h
    exact h2 (by rw [any_mid, h, Bool.or_true])
  · intro h
    exact h3 (by rw [any_mid, h, Bool.or_true])
  · intro h
    refine h4 ?_
    cases hse : segReqIdx e with
    | none => rw [segReqIdxs_mid_none l₁ l₂ hse]; exact h
    | some i => rw [segReqIdxs_mid_some l₁ l₂ hse]; simp
  · intro h
    have hpre := h5 (by rw [any_mid, h, Bool.or_true])
    refine ⟨hpre.1, ?_⟩
    have := hpre.2
    cases hse : segReqIdx e with
    | none => rw [segReqIdxs_mid_none l₁ l₂ hse] at this; exact this
    | some i =>
      rw [segReqIdxs_mid_some l₁ l₂ hse] at this
      exact absurd this (by simp)
  · intro h
    have := h7 h
    rw [driverCount_mid] at this
    show driverCount (l₁ ++ l₂) = 0
    omega
  · intro h
    have := h8 h
    cases hse : segReqIdx e with
    | none => rw [segReqIdxs_mid_none l₁ l₂ hse] at this; exact this
    | some i =>
      rw [segReqIdxs_mid_some l₁ l₂ hse] at this
      exact absurd this (by simp)
  · rw [driverCount_mid] at h9
    show driverCount (l₁ ++ l₂) ≤ 1
    omega
  · cases hse : segReqIdx e with
    | none => rw [segReqIdxs_mid_none l₁ l₂ hse] at h10; exact h10
    | some i =>
      rw [segReqIdxs_mid_some l₁ l₂ hse] at h10
      cases ht : s.tracker with
      | none => trivial
      | some st =>
        rw [ht] at h10
        obtain ⟨ht1, ht2, ht3, ht4, ht5⟩ := h10
        have hperm :
            (segReqIdxs l₁ ++ i :: segReqIdxs l₂).Perm
              (i :: (segReqIdxs l₁ ++ segReqIdxs l₂)) := List.perm_middle
        refine ⟨ht1, ?_, ?_, ht4, ?_⟩
        · have := (hperm.nodup_iff).mp ht2
          rw [segReqIdxs_append]
          exact (List.nodup_cons.mp this).2
        · intro j hj
          refine ht3 j ?_
          rw [segReqIdxs_append] at hj
          exact (hperm.mem_iff).mpr (List.mem_cons_of_mem i hj)
        · have hlen := hperm.length_eq
          simp only [List.length_append, List.length_cons] at hlen ht5 ⊢
          rw [segReqIdxs_append]
          simp only [List.length_append]
          omega

/-- Every `failJob` outcome re-establishes the invariant, provided the
rest of the queue holds no driver event, the pre-write status is not
`COMPLETED`, and any pending fan-out events certify a
`GENERATING_AUDIO_STAGE`-or-`FAILED` pre-write status. -/
theorem inv_failJob (fdb : Bool) (jobId : Nat) (step : PodcastStatus)
    (msg : String) (rec₀ : PodcastRecord) (trk : Option JobStorage)
    (l₁ l₂ E : List Event)
    (hdrv : driverCount (l₁ ++ l₂) = 0)
    (hstatne : rec₀.status ≠ .COMPLETED)
    (hsegstat : segReqIdxs (l₁ ++ l₂) ≠ [] →
      rec₀.status = .GENERATING_AUDIO_STAGE ∨ rec₀.status = .FAILED) :
    Inv { record := (failJob fdb jobId step msg rec₀ trk).1,
          tracker := (failJob fdb jobId step msg rec₀ trk).2.1,
          queue := (l₁ ++ l₂) ++ (failJob fdb jobId step msg rec₀ trk).2.2,
          emitted := E } := by
  obtain ⟨ha1, ha2, ha3, ha4⟩ := drivers_absent hdrv
  have hcnt : List.countP isDriver l₁ + List.countP isDriver l₂ = 0 := by
    simpa [driverCount, List.countP_append] using hdrv
  cases fdb with
  | false =>
    rw [failJob_false]
    refine ⟨?_, ?_, ?_, ?_, ?_, ?_, ?_, ?_, ?_, ?_⟩
    · simp [ha1, ha2]
    · simp [ha1, ha2]
    · simp [ha1, ha2, ha3]
    · intro hne
      refine hsegstat ?_
      simpa [segReqIdxs_append, segReqIdxs] using hne
    · simp [ha4]
    · intro _
      rfl
    · intro _
      simpa [driverCount_append, driverCount] using hdrv
    · intro hc
      exact absurd hc hstatne
    · simp only [List.append_nil]
      omega
    · trivial
  | true =>
    rw [failJob_true]
    refine ⟨?_, ?_, ?_, ?_, ?_, ?_, ?_, ?_, ?_, ?_⟩
    · intro h
      rw [List.any_append, ha1] at h
      simp [isRequested] at h
    · intro h
      rw [List.any_append, ha2] at h
      simp [isScraped] at h
    · intro h
      rw [List.any_append, ha3] at h
      simp [isContentGen] at h
    · intro _
      right
      rfl
    · intro h
      rw [List.any_append, ha4] at h
      simp [isAllAudio] at h
    · intro _
      rfl
    · intro _
      have h0 : List.countP isDriver [Event.failed jobId step msg] = 0 := rfl
      simp only [driverCount, List.countP_append, h0]
      omega
    · intro hc
      exact absurd hc (by simp)
    · have h0 : List.countP isDriver [Event.failed jobId step msg] = 0 := rfl
      simp only [driverCount, List.countP_append, h0]
      omega
    · trivial

theorem statusStepOk_refl (a : PodcastStatus) : statusStepOk a a :=
  Or.inl rfl

theorem runHandler_eq (o : Oracle) (e : Event) (s : Sys)
    (rest : List Event) :
    runHandler o e s rest =
      { record := (handle o e s.record s.tracker).1,
        tracker := (handle o e s.record s.tracker).2.1,
        queue := rest ++ (handle o e s.record s.tracker).2.2,
        emitted := s.emitted ++ (handle o e s.record s.tracker).2.2 } := rfl

/-- Re-establishing the invariant after a handler that consumed the only
pending driver and emitted a single non-fan-out event `d`. -/
theorem inv_after_linear_advance (rest : List Event) (d : Event)
    (rec' : PodcastRecord) (trk : Option JobStorage) (E : List Event)
    (hrest : driverCount rest = 0)
    (hseg : segReqIdxs rest = [])
    (hdseg : segReqIdx d = none)
    (htrk : TrkOk trk [])
    (hd_req : isRequested d = true → rec'.status = .PENDING)
    (hd_scr : isScraped d = true → rec'.status = .SCRAPING)
    (hd_cg : isContentGen d = true → rec'.status = .GENERATING_CONTENT)
    (hd_aa : isAllAudio d = true → rec'.status = .GENERATING_AUDIO_STAGE)
    (hterm : (rec'.status = .COMPLETED ∨ rec'.status = .FAILED) →
      isDriver d = false)
    (hfail : rec'.status = .FAILED → trk = none) :
    Inv { record := rec', tracker := trk, queue := rest ++ [d],
          emitted := E } := by
  obtain ⟨ha1, ha2, ha3, ha4⟩ := drivers_absent hrest
  have hsegq : segReqIdxs (rest ++ [d]) = [] := by
    rw [segReqIdxs_append, hseg]
    simp [segReqIdxs, List.filterMap_cons, hdseg]
  refine ⟨?_, ?_, ?_, ?_, ?_, hfail, ?_, ?_, ?_, ?_⟩
  · intro h
    rw [List.any_append, ha1] at h
    simp only [Bool.false_or, List.any_cons, List.any_nil,
      Bool.or_false] at h
    exact hd_req h
  · intro h
    rw [List.any_append, ha2] at h
    simp only [Bool.false_or, List.any_cons, List.any_nil,
      Bool.or_false] at h
    exact hd_scr h
  · intro h
    rw [List.any_append, ha3] at h
    simp only [Bool.false_or, List.any_cons, List.any_nil,
      Bool.or_false] at h
    exact hd_cg h
  · intro hne
    exact absurd hsegq hne
  · intro h
    rw [List.any_append, ha4] at h
    simp only [Bool.false_or, List.any_cons, List.any_nil,
      Bool.or_false] at h
    exact ⟨hd_aa h, hsegq⟩
  · intro h
    have hd := hterm h
    rw [driverCount_append, hrest]
    simp [driverCount, List.countP_cons, hd]
  · intro _
    exact hsegq
  · rw [driverCount_append, hrest]
    cases hd : isDriver d <;>
      simp [driverCount, List.countP_cons, hd]
  · show TrkOk trk (segReqIdxs (rest ++ [d]))
    rw [hsegq]
    exact htrk

/-- The `handle` outcomes for `podcast.requested`. -/
theorem handle_requested_dbFail (o : Oracle) (jobId : Nat) (url : String)
    (userId : Nat) (ddo : DeepDiveOption) (rec : PodcastRecord)
    (trk : Option JobStorage) (hdb : o.dbOk1 = false) :
    handle o (.requested jobId url userId ddo) rec trk =
      failJob o.failDbOk jobId .SCRAPING "Scraping failed" rec trk := by
  simp [handle, hdb]

theorem handle_requested_scrapeFail (o : Oracle) (jobId : Nat)
    (url : String) (userId : Nat) (ddo : DeepDiveOption)
    (rec : PodcastRecord) (trk : Option JobStorage)
    (hdb : o.dbOk1 = true) (hsc : o.scrape = none) :
    handle o (.requested jobId url userId ddo) rec trk =
      failJob o.failDbOk jobId .SCRAPING "Scraping failed"
        { rec with status := .SCRAPING } trk := by
  simp [handle, hdb, hsc]

theorem handle_requested_ok (o : Oracle) (jobId : Nat) (url : String)
    (userId : Nat) (ddo : DeepDiveOption) (rec : PodcastRecord)
    (trk : Option JobStorage) (t : Option String) (c : String)
    (hdb : o.dbOk1 = true) (hsc : o.scrape = some (t, c)) :
    handle o (.requested jobId url userId ddo) rec trk =
      ({ rec with status := .SCRAPING }, trk,
        [.scraped jobId (t.getD "Untitled Podcast") c userId ddo]) := by
  simp [handle, hdb, hsc]

/-- Step analysis for `podcast.requested`. -/
theorem inv_step_requested (s : Sys) (o : Oracle) (l₁ l₂ : List Event)
    (jobId : Nat) (url : String) (userId : Nat) (ddo : DeepDiveOption)
    (hinv : Inv s)
    (hq : s.queue = l₁ ++ Event.requested jobId url userId ddo :: l₂) :
    Inv (runHandler o (.requested jobId url userId ddo) s (l₁ ++ l₂)) ∧
    statusStepOk s.record.status
      (runHandler o (.requested jobId url userId ddo) s
        (l₁ ++ l₂)).record.status := by
  obtain ⟨h1, h2, h3, h4, h5, h6, h7, h8, h9, h10⟩ := hinv
  have hstat : s.record.status = .PENDING := by
    refine h1 ?_
    rw [hq, any_mid]
    simp [isRequested]
  have h9q := h9
  rw [hq] at h9q
  have hrest : driverCount (l₁ ++ l₂) = 0 :=
    rest_drivers h9q (by simp [isDriver])
  have hseg : segReqIdxs (l₁ ++ l₂) = [] := by
    have hs : segReqIdxs s.queue = [] := by
      by_contra hne
      rcases h4 hne with h | h <;> rw [hstat] at h <;> simp at h
    rw [hq, segReqIdxs_mid_none (e := .requested jobId url userId ddo)
      l₁ l₂ rfl] at hs
    exact hs
  have htrk : TrkOk s.tracker [] := by
    have h10q := h10
    rw [hq, segReqIdxs_mid_none (e := .requested jobId url userId ddo)
      l₁ l₂ rfl, hseg] at h10q
    exact h10q
  rw [runHandler_eq]
  cases hdb : o.dbOk1 with
  | false =>
    rw [handle_requested_dbFail o jobId url userId ddo s.record s.tracker
      hdb]
    refine ⟨inv_failJob _ _ _ _ _ _ _ _ _ hrest
      (by rw [hstat]; simp) (fun hne => absurd hseg hne), ?_⟩
    cases hf : o.failDbOk with
    | false =>
      rw [failJob_false]
      exact statusStepOk_refl _
    | true =>
      rw [failJob_true]
      rw [hstat]
      exact Or.inr (by simp [statusIdx])
  | true =>
    cases hsc : o.scrape with
    | none =>
      rw [handle_requested_scrapeFail o jobId url userId ddo s.record
        s.tracker hdb hsc]
      refine ⟨inv_failJob _ _ _ _ _ _ _ _ _ hrest (by simp)
        (fun hne => absurd hseg hne), ?_⟩
      cases hf : o.failDbOk with
      | false =>
        rw [failJob_false]
        rw [hstat]
        exact Or.inr (by simp [statusIdx])
      | true =>
        rw [failJob_true]
        rw [hstat]
        exact Or.inr (by simp [statusIdx])
    | some tc =>
      obtain ⟨t, c⟩ := tc
      rw [handle_requested_ok o jobId url userId ddo s.record s.tracker t c
        hdb hsc]
      constructor
      · refine inv_after_linear_advance _ _ _ _ _ hrest hseg rfl htrk
          ?_ ?_ ?_ ?_ ?_ ?_
        · intro h
          simp [isRequested] at h
        · intro _
          rfl
        · intro h
          simp [isContentGen] at h
        · intro h
          simp [isAllAudio] at h
        · intro h
          rcases h with h | h <;> simp at h
        · intro h
          simp at h
      · rw [hstat]
        exact Or.inr (by simp [statusIdx])


/-- The `handle` outcomes for `podcast.scraped`. -/
theorem handle_scraped_dbFail (o : Oracle) (jobId : Nat)
    (title bodyText : String) (userId : Nat) (ddo : DeepDiveOption)
    (rec : PodcastRecord) (trk : Option JobStorage)
    (hdb : o.dbOk1 = false) :
    handle o (.scraped jobId title bodyText userId ddo) rec trk =
      failJob o.failDbOk jobId .GENERATING_CONTENT
        "Content generation failed" rec trk := by
  simp [handle, hdb]

theorem handle_scraped_llmFail (o : Oracle) (jobId : Nat)
    (title bodyText : String) (userId : Nat) (ddo : DeepDiveOption)
    (rec : PodcastRecord) (trk : Option JobStorage)
    (hdb : o.dbOk1 = true) (hllm : o.llm = none) :
    handle o (.scraped jobId title bodyText userId ddo) rec trk =
      failJob o.failDbOk jobId .GENERATING_CONTENT
        "Content generation failed"
        { rec with status := .GENERATING_CONTENT } trk := by
  simp [handle, hdb, hllm]

theorem handle_scraped_persistFail (o : Oracle) (jobId : Nat)
    (title bodyText : String) (userId : Nat) (ddo : DeepDiveOption)
    (rec : PodcastRecord) (trk : Option JobStorage)
    (sm : LlmSummary) (dia : LlmDialogue)
    (hdb : o.dbOk1 = true) (hllm : o.llm = some (sm, dia))
    (hdb2 : o.dbOk2 = false) :
    handle o (.scraped jobId title bodyText userId ddo) rec trk =
      failJob o.failDbOk jobId .GENERATING_CONTENT
        "Content generation failed"
        { rec with status := .GENERATING_CONTENT } trk := by
  simp [handle, hdb, hllm, hdb2]

theorem handle_scraped_ok (o : Oracle) (jobId : Nat)
    (title bodyText : String) (userId : Nat) (ddo : DeepDiveOption)
    (rec : PodcastRecord) (trk : Option JobStorage)
    (sm : LlmSummary) (dia : LlmDialogue)
    (hdb : o.dbOk1 = true) (hllm : o.llm = some (sm, dia))
    (hdb2 : o.dbOk2 = true) :
    handle o (.scraped jobId title bodyText userId ddo) rec trk =
      ({ rec with
          status := .GENERATING_CONTENT
          title := some (sm.title.getD title)
          summary := some sm
          transcript := some dia }, trk,
        [.contentGenerated jobId sm dia userId]) := by
  simp [handle, hdb, hllm, hdb2]

/-- Step analysis for `podcast.scraped`. -/
theorem inv_step_scraped (s : Sys) (o : Oracle) (l₁ l₂ : List Event)
    (jobId : Nat) (title bodyText : String) (userId : Nat)
    (ddo : DeepDiveOption) (hinv : Inv s)
    (hq : s.queue = l₁ ++ Event.scraped jobId title bodyText userId ddo
      :: l₂) :
    Inv (runHandler o (.scraped jobId title bodyText userId ddo) s
      (l₁ ++ l₂)) ∧
    statusStepOk s.record.status
      (runHandler o (.scraped jobId title bodyText userId ddo) s
        (l₁ ++ l₂)).record.status := by
  obtain ⟨h1, h2, h3, h4, h5, h6, h7, h8, h9, h10⟩ := hinv
  have hstat : s.record.status = .SCRAPING := by
    refine h2 ?_
    rw [hq, any_mid]
    simp [isScraped]
  have h9q := h9
  rw [hq] at h9q
  have hrest : driverCount (l₁ ++ l₂) = 0 :=
    rest_drivers h9q (by simp [isDriver])
  have hseg : segReqIdxs (l₁ ++ l₂) = [] := by
    have hs : segReqIdxs s.queue = [] := by
      by_contra hne
      rcases h4 hne with h | h <;> rw [hstat] at h <;> simp at h
    rw [hq, segReqIdxs_mid_none
      (e := .scraped jobId title bodyText userId ddo) l₁ l₂ rfl] at hs
    exact hs
  have htrk : TrkOk s.tracker [] := by
    have h10q := h10
    rw [hq, segReqIdxs_mid_none
      (e := .scraped jobId title bodyText userId ddo) l₁ l₂ rfl,
      hseg] at h10q
    exact h10q
  rw [runHandler_eq]
  cases hdb : o.dbOk1 with
  | false =>
    rw [handle_scraped_dbFail o jobId title bodyText userId ddo s.record
      s.tracker hdb]
    refine ⟨inv_failJob _ _ _ _ _ _ _ _ _ hrest
      (by rw [hstat]; simp) (fun hne => absurd hseg hne), ?_⟩
    cases hf : o.failDbOk with
    | false =>
      rw [failJob_false]
      exact statusStepOk_refl _
    | true =>
      rw [failJob_true]
      rw [hstat]
      exact Or.inr (by simp [statusIdx])
  | true =>
    cases hllm : o.llm with
    | none =>
      rw [handle_scraped_llmFail o jobId title bodyText userId ddo
        s.record s.tracker hdb hllm]
      refine ⟨inv_failJob _ _ _ _ _ _ _ _ _ hrest (by simp)
        (fun hne => absurd hseg hne), ?_⟩
      cases hf : o.failDbOk with
      | false =>
        rw [failJob_false]
        rw [hstat]
        exact Or.inr (by simp [statusIdx])
      | true =>
        rw [failJob_true]
        rw [hstat]
        exact Or.inr (by simp [statusIdx])
    | some sd =>
      obtain ⟨sm, dia⟩ := sd
      cases hdb2 : o.dbOk2 with
      | false =>
        rw [handle_scraped_persistFail o jobId title bodyText userId ddo
          s.record s.tracker sm dia hdb hllm hdb2]
        refine ⟨inv_failJob _ _ _ _ _ _ _ _ _ hrest (by simp)
          (fun hne => absurd hseg hne), ?_⟩
        cases hf : o.failDbOk with
        | false =>
          rw [failJob_false]
          rw [hstat]
          exact Or.inr (by simp [statusIdx])
        | true =>
          rw [failJob_true]
          rw [hstat]
          exact Or.inr (by simp [statusIdx])
      | true =>
        rw [handle_scraped_ok o jobId title bodyText userId ddo s.record
          s.tracker sm dia hdb hllm hdb2]
        constructor
        · refine inv_after_linear_advance _ _ _ _ _ hrest hseg rfl htrk
            ?_ ?_ ?_ ?_ ?_ ?_
          · intro h
            simp [isRequested] at h
          · intro h
            simp [isScraped] at h
          · intro _
            rfl
          · intro h
            simp [isAllAudio] at h
          · intro h
            rcases h with h | h <;> simp at h
          · intro h
            simp at h
        · rw [hstat]
          exact Or.inr (by simp [statusIdx])

/-- Indices of the emitted fan-out events are exactly `0, …, N-1`. -/
theorem segReqIdxs_emit (jobId uid N : Nat)
    (segments : List DialogueSegment) :
    segReqIdxs (segments.enum.map fun p =>
      Event.segmentAudioRequested jobId p.1 p.2.text p.2.speaker N uid) =
      List.range segments.length := by
  have h1 : segReqIdxs (segments.enum.map fun p =>
      Event.segmentAudioRequested jobId p.1 p.2.text p.2.speaker N uid) =
      segments.enum.map Prod.fst := by
    rw [segReqIdxs, List.filterMap_map]
    exact List.filterMap_eq_map Prod.fst ▸ rfl
  rw [h1, List.enum_map_fst]

/-- The emitted fan-out events trip none of the driver scanners. -/
theorem emit_scanners (jobId uid N : Nat)
    (segments : List DialogueSegment) :
    (segments.enum.map fun p =>
      Event.segmentAudioRequested jobId p.1 p.2.text p.2.speaker N
        uid).any isRequested = false ∧
    (segments.enum.map fun p =>
      Event.segmentAudioRequested jobId p.1 p.2.text p.2.speaker N
        uid).any isScraped = false ∧
    (segments.enum.map fun p =>
      Event.segmentAudioRequested jobId p.1 p.2.text p.2.speaker N
        uid).any isContentGen = false ∧
    (segments.enum.map fun p =>
      Event.segmentAudioRequested jobId p.1 p.2.text p.2.speaker N
        uid).any isAllAudio = false ∧
    (segments.enum.map fun p =>
      Event.segmentAudioRequested jobId p.1 p.2.text p.2.speaker N
        uid).countP isDriver = 0 := by
  refine ⟨?_, ?_, ?_, ?_, ?_⟩ <;>
    first
      | (simp [List.any_map, List.countP_map, Function.comp, isRequested,
          isScraped, isContentGen, isAllAudio, isDriver];
         intro x a b _ hx;
         rw [← hx])
      | simp [List.any_map, List.countP_map, Function.comp, isDriver]


/-- The `handle` outcomes for `podcast.content_generated`. -/
theorem handle_contentGen_zero_throw (o : Oracle) (jobId : Nat)
    (sm : LlmSummary) (dia : LlmDialogue) (uid : Nat)
    (rec : PodcastRecord) (trk : Option JobStorage)
    (h0 : (dia.segments.getD []).length = 0) (hf : o.fetchZero = none) :
    handle o (.contentGenerated jobId sm dia uid) rec trk =
      failJob o.failDbOk jobId .GENERATING_AUDIO_STAGE
        "Audio generation setup failed" rec trk := by
  simp [handle, h0, hf]

theorem handle_contentGen_zero_missing (o : Oracle) (jobId : Nat)
    (sm : LlmSummary) (dia : LlmDialogue) (uid : Nat)
    (rec : PodcastRecord) (trk : Option JobStorage)
    (h0 : (dia.segments.getD []).length = 0)
    (hf : o.fetchZero = some false) :
    handle o (.contentGenerated jobId sm dia uid) rec trk =
      (rec, trk, []) := by
  simp [handle, h0, hf]

theorem handle_contentGen_zero_ok (o : Oracle) (jobId : Nat)
    (sm : LlmSummary) (dia : LlmDialogue) (uid : Nat)
    (rec : PodcastRecord) (trk : Option JobStorage)
    (h0 : (dia.segments.getD []).length = 0)
    (hf : o.fetchZero = some true) :
    handle o (.contentGenerated jobId sm dia uid) rec trk =
      ((if o.dbOk1 then
          { rec with status := .COMPLETED, audioUrl := none }
        else rec), trk,
        [.completed jobId
          { rec with status := .COMPLETED, audioUrl := none }]) := by
  simp [handle, h0, hf]

theorem handle_contentGen_zero_ok_db (o : Oracle) (jobId : Nat)
    (sm : LlmSummary) (dia : LlmDialogue) (uid : Nat)
    (rec : PodcastRecord) (trk : Option JobStorage)
    (h0 : (dia.segments.getD []).length = 0)
    (hf : o.fetchZero = some true) (hdb : o.dbOk1 = true) :
    handle o (.contentGenerated jobId sm dia uid) rec trk =
      ({ rec with status := .COMPLETED, audioUrl := none }, trk,
        [.completed jobId
          { rec with status := .COMPLETED, audioUrl := none }]) := by
  simp [handle, h0, hf, hdb]

theorem handle_contentGen_many_dbFail (o : Oracle) (jobId : Nat)
    (sm : LlmSummary) (dia : LlmDialogue) (uid : Nat)
    (rec : PodcastRecord) (trk : Option JobStorage)
    (hn : (dia.segments.getD []).length ≠ 0) (hdb : o.dbOk1 = false) :
    handle o (.contentGenerated jobId sm dia uid) rec trk =
      failJob o.failDbOk jobId .GENERATING_AUDIO_STAGE
        "Audio generation setup failed" rec trk := by
  simp [handle, hn, hdb]

theorem handle_contentGen_many_ok (o : Oracle) (jobId : Nat)
    (sm : LlmSummary) (dia : LlmDialogue) (uid : Nat)
    (rec : PodcastRecord) (trk : Option JobStorage)
    (hn : (dia.segments.getD []).length ≠ 0) (hdb : o.dbOk1 = true) :
    handle o (.contentGenerated jobId sm dia uid) rec trk =
      ({ rec with
          status := .GENERATING_AUDIO_STAGE
          jobMetadata := some ⟨(dia.segments.getD []).length⟩ },
        some (initializeJobStorage (dia.segments.getD []).length),
        (dia.segments.getD []).enum.map fun p =>
          .segmentAudioRequested jobId p.1 p.2.text p.2.speaker
            (dia.segments.getD []).length uid) := by
  simp [handle, hn, hdb]

/-- Step analysis for `podcast.content_generated`. -/
theorem inv_step_contentGen (s : Sys) (o : Oracle) (l₁ l₂ : List Event)
    (jobId : Nat) (sm : LlmSummary) (dia : LlmDialogue) (uid : Nat)
    (hinv : Inv s)
    (hq : s.queue = l₁ ++ Event.contentGenerated jobId sm dia uid :: l₂) :
    Inv (runHandler o (.contentGenerated jobId sm dia uid) s (l₁ ++ l₂)) ∧
    statusStepOk s.record.status
      (runHandler o (.contentGenerated jobId sm dia uid) s
        (l₁ ++ l₂)).record.status := by
  have hinvc := hinv
  obtain ⟨h1, h2, h3, h4, h5, h6, h7, h8, h9, h10⟩ := hinv
  have hstat : s.record.status = .GENERATING_CONTENT := by
    refine h3 ?_
    rw [hq, any_mid]
    simp [isContentGen]
  have h9q := h9
  rw [hq] at h9q
  have hrest : driverCount (l₁ ++ l₂) = 0 :=
    rest_drivers h9q (by simp [isDriver])
  have hseg : segReqIdxs (l₁ ++ l₂) = [] := by
    have hs : segReqIdxs s.queue = [] := by
      by_contra hne
      rcases h4 hne with h | h <;> rw [hstat] at h <;> simp at h
    rw [hq, segReqIdxs_mid_none
      (e := .contentGenerated jobId sm dia uid) l₁ l₂ rfl] at hs
    exact hs
  have htrk : TrkOk s.tracker [] := by
    have h10q := h10
    rw [hq, segReqIdxs_mid_none
      (e := .contentGenerated jobId sm dia uid) l₁ l₂ rfl,
      hseg] at h10q
    exact h10q
  rw [runHandler_eq]
  by_cases h0 : (dia.segments.getD []).length = 0
  · cases hf : o.fetchZero with
    | none =>
      rw [handle_contentGen_zero_throw o jobId sm dia uid s.record
        s.tracker h0 hf]
      refine ⟨inv_failJob _ _ _ _ _ _ _ _ _ hrest
        (by rw [hstat]; simp) (fun hne => absurd hseg hne), ?_⟩
      cases hfd : o.failDbOk with
      | false =>
        rw [failJob_false]
        exact statusStepOk_refl _
      | true =>
        rw [failJob_true]
        rw [hstat]
        exact Or.inr (by simp [statusIdx])
    | some found =>
      cases found with
      | false =>
        rw [handle_contentGen_zero_missing o jobId sm dia uid s.record
          s.tracker h0 hf]
        constructor
        · have := inv_drop_event hinvc hq (s.emitted ++ [])
          simpa using this
        · exact statusStepOk_refl _
      | true =>
        rw [handle_contentGen_zero_ok o jobId sm dia uid s.record
          s.tracker h0 hf]
        constructor
        · refine inv_after_linear_advance _ _ _ _ _ hrest hseg rfl htrk
            ?_ ?_ ?_ ?_ ?_ ?_
          · intro h
            simp [isRequested] at h
          · intro h
            simp [isScraped] at h
          · intro h
            simp [isContentGen] at h
          · intro h
            simp [isAllAudio] at h
          · intro _
            simp [isDriver]
          · intro h
            cases hdb : o.dbOk1 <;> rw [hdb] at h <;> simp at h
            rw [hstat] at h
            simp at h
        · cases hdb : o.dbOk1 with
          | false =>
            simp only [Bool.false_eq_true, if_false]
            exact statusStepOk_refl _
          | true =>
            simp only [if_true]
            rw [hstat]
            exact Or.inr (by simp [statusIdx])
  · cases hdb : o.dbOk1 with
    | false =>
      rw [handle_contentGen_many_dbFail o jobId sm dia uid s.record
        s.tracker h0 hdb]
      refine ⟨inv_failJob _ _ _ _ _ _ _ _ _ hrest
        (by rw [hstat]; simp) (fun hne => absurd hseg hne), ?_⟩
      cases hfd : o.failDbOk with
      | false =>
        rw [failJob_false]
        exact statusStepOk_refl _
      | true =>
        rw [failJob_true]
        rw [hstat]
        exact Or.inr (by simp [statusIdx])
    | true =>
      rw [handle_contentGen_many_ok o jobId sm dia uid s.record
        s.tracker h0 hdb]
      obtain ⟨he1, he2, he3, he4, he5⟩ :=
        emit_scanners jobId uid (dia.segments.getD []).length
          (dia.segments.getD [])
      obtain ⟨ha1, ha2, ha3, ha4⟩ := drivers_absent hrest
      have hsegq :
          segReqIdxs ((l₁ ++ l₂) ++ (dia.segments.getD []).enum.map fun p =>
            Event.segmentAudioRequested jobId p.1 p.2.text p.2.speaker
              (dia.segments.getD []).length uid) =
          List.range (dia.segments.getD []).length := by
        rw [segReqIdxs_append, hseg, segReqIdxs_emit]
        rfl
      constructor
      · refine ⟨?_, ?_, ?_, ?_, ?_, ?_, ?_, ?_, ?_, ?_⟩
        · intro h
          rw [List.any_append, ha1, he1] at h
          simp at h
        · intro h
          rw [List.any_append, ha2, he2] at h
          simp at h
        · intro h
          rw [List.any_append, ha3, he3] at h
          simp at h
        · intro _
          left
          rfl
        · intro h
          rw [List.any_append, ha4, he4] at h
          simp at h
        · intro h
          simp at h
        · intro h
          rcases h with h | h <;> simp at h
        · intro h
          simp at h
        · show driverCount _ ≤ 1
          rw [driverCount_append, hrest, driverCount, he5]
          omega
        · show TrkOk _ _
          rw [hsegq]
          refine ⟨rfl, List.nodup_range _, ?_, ?_, ?_⟩
          · intro i hi
            rw [List.mem_range] at hi
            exact ⟨hi, Finset.not_mem_empty i⟩
          · intro i hi
            exact absurd hi (Finset.not_mem_empty i)
          · simp [initializeJobStorage]
      · rw [hstat]
        exact Or.inr (by simp [statusIdx])


/-- The `handle` outcomes for `podcast.segment.audio_requested`. -/
theorem handle_segReq_ttsFail (o : Oracle) (jobId idx : Nat)
    (txt spk : String) (tot uid : Nat) (rec : PodcastRecord)
    (trk : Option JobStorage) (htts : o.tts = none) :
    handle o (.segmentAudioRequested jobId idx txt spk tot uid) rec trk =
      failJob o.failDbOk jobId .GENERATING_AUDIO_STAGE "TTS generation failed"
        rec trk := by
  simp [handle, htts]

theorem handle_segReq_ok (o : Oracle) (jobId idx : Nat)
    (txt spk : String) (tot uid : Nat) (rec : PodcastRecord)
    (trk : Option JobStorage) (buf : Buffer) (htts : o.tts = some buf) :
    handle o (.segmentAudioRequested jobId idx txt spk tot uid) rec trk =
      (rec, (storeSegmentAudio trk idx buf).1,
        if (storeSegmentAudio trk idx buf).2 then
          match o.userIdLookup with
          | none => [.segmentAudioGenerated jobId idx tot]
          | some u2 =>
            [.segmentAudioGenerated jobId idx tot,
              .allAudioGenerated jobId u2]
        else [.segmentAudioGenerated jobId idx tot]) := by
  simp only [handle, htts]
  cases hb : (storeSegmentAudio trk idx buf).2 with
  | false => simp [hb]
  | true => cases hu : o.userIdLookup <;> simp [hb, hu]

/-- Step analysis for `podcast.segment.audio_requested`. -/
theorem inv_step_segReq (s : Sys) (o : Oracle) (l₁ l₂ : List Event)
    (jobId idx : Nat) (txt spk : String) (tot uid : Nat) (hinv : Inv s)
    (hq : s.queue =
      l₁ ++ Event.segmentAudioRequested jobId idx txt spk tot uid :: l₂) :
    Inv (runHandler o (.segmentAudioRequested jobId idx txt spk tot uid) s
      (l₁ ++ l₂)) ∧
    statusStepOk s.record.status
      (runHandler o (.segmentAudioRequested jobId idx txt spk tot uid) s
        (l₁ ++ l₂)).record.status := by
  obtain ⟨h1, h2, h3, h4, h5, h6, h7, h8, h9, h10⟩ := hinv
  have hmid :
      segReqIdxs s.queue = segReqIdxs l₁ ++ idx :: segReqIdxs l₂ := by
    rw [hq]
    exact segReqIdxs_mid_some
      (e := .segmentAudioRequested jobId idx txt spk tot uid) l₁ l₂ rfl
  have hne : segReqIdxs s.queue ≠ [] := by
    rw [hmid]
    simp
  have hstat2 := h4 hne
  have hnoreq : s.queue.any isRequested = false := by
    cases hh : s.queue.any isRequested with
    | false => rfl
    | true =>
      exfalso
      have hp := h1 hh
      rcases hstat2 with h | h <;> rw [hp] at h <;> simp at h
  have hnoscr : s.queue.any isScraped = false := by
    cases hh : s.queue.any isScraped with
    | false => rfl
    | true =>
      exfalso
      have hp := h2 hh
      rcases hstat2 with h | h <;> rw [hp] at h <;> simp at h
  have hnocg : s.queue.any isContentGen = false := by
    cases hh : s.queue.any isContentGen with
    | false => rfl
    | true =>
      exfalso
      have hp := h3 hh
      rcases hstat2 with h | h <;> rw [hp] at h <;> simp at h
  have hnoaa : s.queue.any isAllAudio = false := by
    cases hh : s.queue.any isAllAudio with
    | false => rfl
    | true => exact absurd (h5 hh).2 hne
  have hdropAny : ∀ p : Event → Bool, s.queue.any p = false →
      (l₁ ++ l₂).any p = false := by
    intro p h
    rw [hq, any_mid] at h
    exact (Bool.or_eq_false_iff.mp h).2
  have ha1 := hdropAny _ hnoreq
  have ha2 := hdropAny _ hnoscr
  have ha3 := hdropAny _ hnocg
  have ha4 := hdropAny _ hnoaa
  have hrest : driverCount (l₁ ++ l₂) = 0 :=
    driverCount_zero_of_absent ha1 ha2 ha3 ha4
  have htrkPre : TrkOk s.tracker (segReqIdxs l₁ ++ idx :: segReqIdxs l₂) :=
    hmid ▸ h10
  rw [runHandler_eq]
  cases htts : o.tts with
  | none =>
    rw [handle_segReq_ttsFail o jobId idx txt spk tot uid s.record
      s.tracker htts]
    constructor
    · refine inv_failJob _ _ _ _ _ _ _ _ _ hrest ?_ (fun _ => hstat2)
      rcases hstat2 with h | h <;> rw [h] <;> simp
    · cases hfd : o.failDbOk with
      | false =>
        rw [failJob_false]
        exact statusStepOk_refl _
      | true =>
        rw [failJob_true]
        rcases hstat2 with h | h
        · rw [h]
          exact Or.inr (by simp [statusIdx])
        · rw [h]
          exact Or.inl rfl
  | some buf =>
    rw [handle_segReq_ok o jobId idx txt spk tot uid s.record s.tracker
      buf htts]
    dsimp only
    refine ⟨?_, Or.inl rfl⟩
    cases ht : s.tracker with
    | none =>
      simp only [storeSegmentAudio, Bool.false_eq_true, if_false]
      refine ⟨?_, ?_, ?_, ?_, ?_, ?_, ?_, ?_, ?_, ?_⟩
      · intro h
        rw [List.any_append, ha1] at h
        simp [isRequested] at h
      · intro h
        rw [List.any_append, ha2] at h
        simp [isScraped] at h
      · intro h
        rw [List.any_append, ha3] at h
        simp [isContentGen] at h
      · intro _
        exact hstat2
      · intro h
        rw [List.any_append, ha4] at h
        simp [isAllAudio] at h
      · intro _
        rfl
      · intro _
        rw [driverCount_append, hrest]
        simp [driverCount, List.countP_cons, isDriver]
      · intro h
        exfalso
        rcases hstat2 with h2 | h2 <;> rw [h] at h2 <;> simp at h2
      · rw [driverCount_append, hrest]
        simp [driverCount, List.countP_cons, isDriver]
      · trivial
    | some st =>
      have hstatA : s.record.status = .GENERATING_AUDIO_STAGE := by
        rcases hstat2 with h | h
        · exact h
        · exact absurd (h6 h) (by rw [ht]; simp)
      rw [ht] at htrkPre
      obtain ⟨ht1, ht2, ht3, ht4, ht5⟩ := htrkPre
      obtain ⟨N, hN⟩ := Option.isSome_iff_exists.mp ht1
      rw [hN, Option.getD_some] at ht3 ht4 ht5
      have hidx_mem : idx ∈ segReqIdxs l₁ ++ idx :: segReqIdxs l₂ := by
        simp
      have hidx_lt : idx < N := (ht3 idx hidx_mem).1
      have hidx_nd : idx ∉ st.completedSegments := (ht3 idx hidx_mem).2
      have hcard : (insert idx st.completedSegments).card =
          st.completedSegments.card + 1 :=
        Finset.card_insert_of_not_mem hidx_nd
      have hperm :
          (segReqIdxs l₁ ++ idx :: segReqIdxs l₂).Perm
            (idx :: (segReqIdxs l₁ ++ segReqIdxs l₂)) := List.perm_middle
      have hnodup2 := (hperm.nodup_iff).mp ht2
      have hidx_notin : idx ∉ segReqIdxs l₁ ++ segReqIdxs l₂ :=
        (List.nodup_cons.mp hnodup2).1
      have hnodup3 : (segReqIdxs l₁ ++ segReqIdxs l₂).Nodup :=
        (List.nodup_cons.mp hnodup2).2
      have hmem3 : ∀ j ∈ segReqIdxs l₁ ++ segReqIdxs l₂,
          j < N ∧ j ∉ st.completedSegments := by
        intro j hj
        exact ht3 j ((hperm.mem_iff).mpr (List.mem_cons_of_mem idx hj))
      have hlen5 : st.completedSegments.card +
          ((segReqIdxs l₁ ++ segReqIdxs l₂).length + 1) ≤ N := by
        have := hperm.length_eq
        simp only [List.length_cons] at this
        omega
      have hsegrest : segReqIdxs (l₁ ++ l₂) =
          segReqIdxs l₁ ++ segReqIdxs l₂ := segReqIdxs_append l₁ l₂
      have hTrkNew : TrkInv
          ⟨(idx, buf) :: st.segs, insert idx st.completedSegments, some N⟩
          (segReqIdxs l₁ ++ segReqIdxs l₂) := by
        refine ⟨rfl, hnodup3, ?_, ?_, ?_⟩
        · intro j hj
          constructor
          · show j < N
            exact (hmem3 j hj).1
          · show j ∉ insert idx st.completedSegments
            rw [Finset.mem_insert]
            rintro (hji | hjc)
            · exact hidx_notin (hji ▸ hj)
            · exact (hmem3 j hj).2 hjc
        · show insert idx st.completedSegments ⊆ Finset.range N
          rw [Finset.insert_subset_iff]
          refine ⟨?_, ht4⟩
          rw [Finset.mem_range]
          exact hidx_lt
        · show (insert idx st.completedSegments).card +
            (segReqIdxs l₁ ++ segReqIdxs l₂).length ≤ N
          rw [hcard]
          omega
      rw [storeSegmentAudio_some]
      simp only [hN]
      cases hball : decide ((insert idx st.completedSegments).card = N) with
      | false =>
        simp only [Bool.false_eq_true, if_false]
        refine ⟨?_, ?_, ?_, ?_, ?_, ?_, ?_, ?_, ?_, ?_⟩
        · intro h
          rw [List.any_append, ha1] at h
          simp [isRequested] at h
        · intro h
          rw [List.any_append, ha2] at h
          simp [isScraped] at h
        · intro h
          rw [List.any_append, ha3] at h
          simp [isContentGen] at h
        · intro _
          left
          exact hstatA
        · intro h
          rw [List.any_append, ha4] at h
          simp [isAllAudio] at h
        · intro h
          exfalso
          rw [hstatA] at h
          simp at h
        · intro h
          exfalso
          rcases h with h | h <;> rw [hstatA] at h <;> simp at h
        · intro h
          exfalso
          rw [hstatA] at h
          simp at h
        · rw [driverCount_append, hrest]
          simp [driverCount, List.countP_cons, isDriver]
        · show TrkOk _ _
          have hq2 : segReqIdxs ((l₁ ++ l₂) ++
              [Event.segmentAudioGenerated jobId idx tot]) =
              segReqIdxs l₁ ++ segReqIdxs l₂ := by
            rw [segReqIdxs_append, hsegrest]
            simp [segReqIdxs, List.filterMap_cons, segReqIdx]
          rw [hq2]
          exact hTrkNew
      | true =>
        have hcardN : (insert idx st.completedSegments).card = N :=
          of_decide_eq_true hball
        have hrestnil : segReqIdxs l₁ ++ segReqIdxs l₂ = [] := by
          have : (segReqIdxs l₁ ++ segReqIdxs l₂).length = 0 := by omega
          exact List.length_eq_zero.mp this
        simp only [if_true]
        cases hu : o.userIdLookup with
        | none =>
          refine ⟨?_, ?_, ?_, ?_, ?_, ?_, ?_, ?_, ?_, ?_⟩
          · intro h
            rw [List.any_append, ha1] at h
            simp [isRequested] at h
          · intro h
            rw [List.any_append, ha2] at h
            simp [isScraped] at h
          · intro h
            rw [List.any_append, ha3] at h
            simp [isContentGen] at h
          · intro _
            left
            exact hstatA
          · intro h
            rw [List.any_append, ha4] at h
            simp [isAllAudio] at h
          · intro h
            exfalso
            rw [hstatA] at h
            simp at h
          · intro h
            exfalso
            rcases h with h | h <;> rw [hstatA] at h <;> simp at h
          · intro h
            exfalso
            rw [hstatA] at h
            simp at h
          · rw [driverCount_append, hrest]
            simp [driverCount, List.countP_cons, isDriver]
          · show TrkOk _ _
            have hq2 : segReqIdxs ((l₁ ++ l₂) ++
                [Event.segmentAudioGenerated jobId idx tot]) = [] := by
              rw [segReqIdxs_append, hsegrest, hrestnil]
              simp [segReqIdxs, List.filterMap_cons, segReqIdx]
            rw [hq2]
            refine ⟨rfl, List.nodup_nil, by simp, hTrkNew.2.2.2.1, ?_⟩
            show (insert idx st.completedSegments).card +
              ([] : List Nat).length ≤ N
            rw [hcardN]
            simp
        | some u2 =>
          refine ⟨?_, ?_, ?_, ?_, ?_, ?_, ?_, ?_, ?_, ?_⟩
          · intro h
            rw [List.any_append, ha1] at h
            simp [isRequested] at h
          · intro h
            rw [List.any_append, ha2] at h
            simp [isScraped] at h
          · intro h
            rw [List.any_append, ha3] at h
            simp [isContentGen] at h
          · intro _
            left
            exact hstatA
          · intro _
            refine ⟨hstatA, ?_⟩
            rw [segReqIdxs_append, hsegrest, hrestnil]
            simp [segReqIdxs, List.filterMap_cons, segReqIdx]
          · intro h
            exfalso
            rw [hstatA] at h
            simp at h
          · intro h
            exfalso
            rcases h with h | h <;> rw [hstatA] at h <;> simp at h
          · intro h
            exfalso
            rw [hstatA] at h
            simp at h
          · rw [driverCount_append, hrest]
            simp [driverCount, List.countP_cons, isDriver]
          · show TrkOk _ _
            have hq2 : segReqIdxs ((l₁ ++ l₂) ++
                [Event.segmentAudioGenerated jobId idx tot,
                  Event.allAudioGenerated jobId u2]) = [] := by
              rw [segReqIdxs_append, hsegrest, hrestnil]
              simp [segReqIdxs, List.filterMap_cons, segReqIdx]
            rw [hq2]
            refine ⟨rfl, List.nodup_nil, by simp, hTrkNew.2.2.2.1, ?_⟩
            show (insert idx st.completedSegments).card +
              ([] : List Nat).length ≤ N
            rw [hcardN]
            simp


/-- The `handle` outcomes for `podcast.all_audio_generated`. -/
theorem handle_allAudio_dbFail (o : Oracle) (jobId userId : Nat)
    (rec : PodcastRecord) (trk : Option JobStorage)
    (hdb : o.dbOk1 = false) :
    handle o (.allAudioGenerated jobId userId) rec trk =
      failJob o.failDbOk jobId .STITCHING "Audio stitching failed"
        rec trk := by
  simp [handle, hdb]

theorem handle_allAudio_retrieveFail (o : Oracle) (jobId userId : Nat)
    (rec : PodcastRecord) (trk : Option JobStorage) (em : String)
    (hdb : o.dbOk1 = true)
    (hr : retrieveJobAudioBuffers trk = .error em) :
    handle o (.allAudioGenerated jobId userId) rec trk =
      failJob o.failDbOk jobId .STITCHING "Audio stitching failed"
        { rec with status := .STITCHING } trk := by
  simp [handle, hdb, hr]

theorem handle_allAudio_recMissing (o : Oracle) (jobId userId : Nat)
    (rec : PodcastRecord) (trk : Option JobStorage) (bufs : List Buffer)
    (hdb : o.dbOk1 = true)
    (hr : retrieveJobAudioBuffers trk = .ok bufs)
    (hrf : o.recFound = false) :
    handle o (.allAudioGenerated jobId userId) rec trk =
      failJob o.failDbOk jobId .STITCHING "Audio stitching failed"
        { rec with status := .STITCHING } trk := by
  simp [handle, hdb, hr, hrf]

theorem handle_allAudio_db2Fail (o : Oracle) (jobId userId : Nat)
    (rec : PodcastRecord) (trk : Option JobStorage) (bufs : List Buffer)
    (hdb : o.dbOk1 = true)
    (hr : retrieveJobAudioBuffers trk = .ok bufs)
    (hrf : o.recFound = true) (hdb2 : o.dbOk2 = false) :
    handle o (.allAudioGenerated jobId userId) rec trk =
      failJob o.failDbOk jobId .STITCHING "Audio stitching failed"
        { rec with status := .STITCHING } trk := by
  simp [handle, hdb, hr, hrf, hdb2]

theorem handle_allAudio_ok (o : Oracle) (jobId userId : Nat)
    (rec : PodcastRecord) (trk : Option JobStorage) (bufs : List Buffer)
    (hdb : o.dbOk1 = true)
    (hr : retrieveJobAudioBuffers trk = .ok bufs)
    (hrf : o.recFound = true) (hdb2 : o.dbOk2 = true) :
    handle o (.allAudioGenerated jobId userId) rec trk =
      ({ rec with
          status := .COMPLETED
          audioUrl := some
            s!"https://fake-storage.com/user-{userId}/podcast-{jobId}.mp3" },
        none,
        [.completed jobId { rec with
          status := .COMPLETED
          audioUrl := some
            s!"https://fake-storage.com/user-{userId}/podcast-{jobId}.mp3" }]) := by
  simp [handle, hdb, hr, hrf, hdb2, cleanupJobData]

/-- Step analysis for `podcast.all_audio_generated`. -/
theorem inv_step_allAudio (s : Sys) (o : Oracle) (l₁ l₂ : List Event)
    (jobId userId : Nat) (hinv : Inv s)
    (hq : s.queue = l₁ ++ Event.allAudioGenerated jobId userId :: l₂) :
    Inv (runHandler o (.allAudioGenerated jobId userId) s (l₁ ++ l₂)) ∧
    statusStepOk s.record.status
      (runHandler o (.allAudioGenerated jobId userId) s
        (l₁ ++ l₂)).record.status := by
  obtain ⟨h1, h2, h3, h4, h5, h6, h7, h8, h9, h10⟩ := hinv
  have hAA : s.queue.any isAllAudio = true := by
    rw [hq, any_mid]
    simp [isAllAudio]
  have hstat : s.record.status = .GENERATING_AUDIO_STAGE := (h5 hAA).1
  have h9q := h9
  rw [hq] at h9q
  have hrest : driverCount (l₁ ++ l₂) = 0 :=
    rest_drivers h9q (by simp [isDriver])
  have hseg : segReqIdxs (l₁ ++ l₂) = [] := by
    have hs := (h5 hAA).2
    rw [hq, segReqIdxs_mid_none
      (e := .allAudioGenerated jobId userId) l₁ l₂ rfl] at hs
    exact hs
  have htrk : TrkOk s.tracker [] := by
    have h10q := h10
    rw [hq, segReqIdxs_mid_none
      (e := .allAudioGenerated jobId userId) l₁ l₂ rfl, hseg] at h10q
    exact h10q
  rw [runHandler_eq]
  have hfailInv : ∀ (rec₀ : PodcastRecord),
      rec₀.status ≠ .COMPLETED →
      Inv { record :=
              (failJob o.failDbOk jobId .STITCHING
                "Audio stitching failed" rec₀ s.tracker).1,
            tracker :=
              (failJob o.failDbOk jobId .STITCHING
                "Audio stitching failed" rec₀ s.tracker).2.1,
            queue := (l₁ ++ l₂) ++
              (failJob o.failDbOk jobId .STITCHING
                "Audio stitching failed" rec₀ s.tracker).2.2,
            emitted := s.emitted ++
              (failJob o.failDbOk jobId .STITCHING
                "Audio stitching failed" rec₀ s.tracker).2.2 } := by
    intro rec₀ hne
    exact inv_failJob _ _ _ _ _ _ _ _ _ hrest hne
      (fun hne2 => absurd hseg hne2)
  cases hdb : o.dbOk1 with
  | false =>
    rw [handle_allAudio_dbFail o jobId userId s.record s.tracker hdb]
    refine ⟨hfailInv s.record (by rw [hstat]; simp), ?_⟩
    cases hfd : o.failDbOk with
    | false =>
      rw [failJob_false]
      exact statusStepOk_refl _
    | true =>
      rw [failJob_true]
      rw [hstat]
      exact Or.inr (by simp [statusIdx])
  | true =>
    cases hr : retrieveJobAudioBuffers s.tracker with
    | error em =>
      rw [handle_allAudio_retrieveFail o jobId userId s.record s.tracker
        em hdb hr]
      refine ⟨hfailInv _ (by simp), ?_⟩
      cases hfd : o.failDbOk with
      | false =>
        rw [failJob_false]
        rw [hstat]
        exact Or.inr (by simp [statusIdx])
      | true =>
        rw [failJob_true]
        rw [hstat]
        exact Or.inr (by simp [statusIdx])
    | ok bufs =>
      cases hrf : o.recFound with
      | false =>
        rw [handle_allAudio_recMissing o jobId userId s.record s.tracker
          bufs hdb hr hrf]
        refine ⟨hfailInv _ (by simp), ?_⟩
        cases hfd : o.failDbOk with
        | false =>
          rw [failJob_false]
          rw [hstat]
          exact Or.inr (by simp [statusIdx])
        | true =>
          rw [failJob_true]
          rw [hstat]
          exact Or.inr (by simp [statusIdx])
      | true =>
        cases hdb2 : o.dbOk2 with
        | false =>
          rw [handle_allAudio_db2Fail o jobId userId s.record s.tracker
            bufs hdb hr hrf hdb2]
          refine ⟨hfailInv _ (by simp), ?_⟩
          cases hfd : o.failDbOk with
          | false =>
            rw [failJob_false]
            rw [hstat]
            exact Or.inr (by simp [statusIdx])
          | true =>
            rw [failJob_true]
            rw [hstat]
            exact Or.inr (by simp [statusIdx])
        | true =>
          rw [handle_allAudio_ok o jobId userId s.record s.tracker bufs
            hdb hr hrf hdb2]
          constructor
          · refine inv_after_linear_advance _ _ _ _ _ hrest hseg rfl
              trivial ?_ ?_ ?_ ?_ ?_ ?_
            · intro h
              simp [isRequested] at h
            · intro h
              simp [isScraped] at h
            · intro h
              simp [isContentGen] at h
            · intro h
              simp [isAllAudio] at h
            · intro _
              simp [isDriver]
            · intro h
              simp at h
          · rw [hstat]
            exact Or.inr (by simp [statusIdx])


/-- Every system step from an invariant state preserves the invariant and
performs a legal status change. -/
theorem inv_step {s s' : Sys} (hinv : Inv s) (hstep : Step s s') :
    Inv s' ∧ statusStepOk s.record.status s'.record.status := by
  cases hstep with
  | handleEvent o l₁ l₂ e s hq =>
    cases e with
    | requested jobId url userId ddo =>
      exact inv_step_requested s o l₁ l₂ jobId url userId ddo hinv hq
    | scraped jobId title bodyText userId ddo =>
      exact inv_step_scraped s o l₁ l₂ jobId title bodyText userId ddo
        hinv hq
    | contentGenerated jobId sm dia uid =>
      exact inv_step_contentGen s o l₁ l₂ jobId sm dia uid hinv hq
    | segmentAudioRequested jobId idx txt spk tot uid =>
      exact inv_step_segReq s o l₁ l₂ jobId idx txt spk tot uid hinv hq
    | allAudioGenerated jobId userId =>
      exact inv_step_allAudio s o l₁ l₂ jobId userId hinv hq
    | segmentAudioGenerated jobId idx tot =>
      constructor
      · have := inv_drop_event hinv hq (s.emitted ++ [])
        simpa [runHandler, handle] using this
      · exact statusStepOk_refl _
    | completed jobId finalRecord =>
      constructor
      · have := inv_drop_event hinv hq (s.emitted ++ [])
        simpa [runHandler, handle] using this
      · exact statusStepOk_refl _
    | failed jobId failedStep errorMessage =>
      constructor
      · have := inv_drop_event hinv hq (s.emitted ++ [])
        simpa [runHandler, handle] using this
      · exact statusStepOk_refl _

/-- The invariant holds in every state reachable from an invariant
state. -/
theorem inv_reach {s0 s : Sys} (h0 : Inv s0) (h : Reach s0 s) : Inv s := by
  induction h with
  | refl => exact h0
  | tail _ hstep ih => exact (inv_step ih hstep).1

/-- C2.  Along every execution of the pipeline from a freshly submitted
job, each step either leaves the persisted status unchanged or moves it
strictly forward along PENDING → SCRAPING → GENERATING_CONTENT →
GENERATING_AUDIO_STAGE → STITCHING → COMPLETED (possibly skipping intermediate
stages, as the zero-segment path completes directly), with a direct jump
to FAILED allowed from every non-terminal state; once the status is
COMPLETED or FAILED no step ever changes it. -/
theorem c2_status_forward_terminal_absorbing (jobId userId : Nat)
    (url : String) (ddo : DeepDiveOption) (s s' : Sys)
    (hreach : Reach (initSys jobId userId url ddo) s)
    (hstep : Step s s') :
    statusStepOk s.record.status s'.record.status :=
  (inv_step (inv_reach (inv_init jobId userId url ddo) hreach) hstep).2

/-- An oracle in which every collaborator call and write succeeds. -/
def okOracle : Oracle :=
  { dbOk1 := true, dbOk2 := true, failDbOk := true,
    scrape := some (some "T", "body"),
    llm := some (⟨some "T", some "S"⟩, ⟨some []⟩),
    tts := some [9], userIdLookup := some 7,
    fetchZero := some true, recFound := true }

/-- C2 witness: the very first step of a concrete job (handling
`podcast.requested`) is a legal status change. -/
theorem c2_status_forward_terminal_absorbing_witness :
    statusStepOk
      (initSys 1 7 "https://example.com" .RETAIN).record.status
      (runHandler okOracle (.requested 1 "https://example.com" 7 .RETAIN)
        (initSys 1 7 "https://example.com" .RETAIN)
        ([] ++ [])).record.status :=
  c2_status_forward_terminal_absorbing 1 7 "https://example.com" .RETAIN
    _ _ Relation.ReflTransGen.refl
    (Step.handleEvent okOracle [] []
      (.requested 1 "https://example.com" 7 .RETAIN)
      (initSys 1 7 "https://example.com" .RETAIN) rfl)

/-! ## Frozen tails: a queue of sinks changes nothing -/

/-- A queue containing only sink events. -/
def sinksOnly (q : List Event) : Prop := ∀ e ∈ q, isSink e = true

/-- Handling any event of a sinks-only queue changes neither the record,
nor the tracker, nor the emission history. -/
theorem step_frozen {s s' : Sys} (hsink : sinksOnly s.queue)
    (hstep : Step s s') :
    s'.record = s.record ∧ s'.tracker = s.tracker ∧
    s'.emitted = s.emitted ∧ sinksOnly s'.queue := by
  cases hstep with
  | handleEvent o l₁ l₂ e s hq =>
    have he : isSink e = true := hsink e (by rw [hq]; simp)
    have hrest : sinksOnly (l₁ ++ l₂) := by
      intro x hx
      refine hsink x ?_
      rw [hq]
      rcases List.mem_append.mp hx with h | h
      · exact List.mem_append_left _ h
      · exact List.mem_append_right _ (List.mem_cons_of_mem _ h)
    cases e with
    | segmentAudioGenerated jobId idx tot =>
      refine ⟨rfl, rfl, by simp [runHandler, handle], ?_⟩
      intro x hx
      refine hrest x ?_
      simpa [runHandler, handle] using hx
    | completed jobId finalRecord =>
      refine ⟨rfl, rfl, by simp [runHandler, handle], ?_⟩
      intro x hx
      refine hrest x ?_
      simpa [runHandler, handle] using hx
    | failed jobId failedStep errorMessage =>
      refine ⟨rfl, rfl, by simp [runHandler, handle], ?_⟩
      intro x hx
      refine hrest x ?_
      simpa [runHandler, handle] using hx
    | requested jobId url userId ddo => simp [isSink] at he
    | scraped jobId title bodyText userId ddo => simp [isSink] at he
    | contentGenerated jobId sm dia uid => simp [isSink] at he
    | segmentAudioRequested jobId idx txt spk tot uid =>
      simp [isSink] at he
    | allAudioGenerated jobId userId => simp [isSink] at he

/-- From a sinks-only state, nothing observable ever changes again. -/
theorem reach_frozen {s s₂ : Sys} (hsink : sinksOnly s.queue)
    (hreach : Reach s s₂) :
    s₂.record = s.record ∧ s₂.tracker = s.tracker ∧
    s₂.emitted = s.emitted ∧ sinksOnly s₂.queue := by
  induction hreach with
  | refl => exact ⟨rfl, rfl, rfl, hsink⟩
  | tail _ hstep ih =>
    obtain ⟨hrec, htrk2, hemit, hsink2⟩ := ih
    obtain ⟨g1, g2, g3, g4⟩ := step_frozen hsink2 hstep
    exact ⟨g1.trans hrec, g2.trans htrk2, g3.trans hemit, g4⟩

/-- In a queue with no pending drivers and no pending fan-out requests,
every event is a sink. -/
theorem sinksOnly_of_no_active {q : List Event}
    (hdrv : driverCount q = 0) (hseg : segReqIdxs q = []) :
    sinksOnly q := by
  intro x hx
  rcases event_classification x with h | h | h
  · exfalso
    rw [driverCount, List.countP_eq_zero] at hdrv
    exact absurd h (by simpa using hdrv x hx)
  · exfalso
    obtain ⟨i, hi⟩ := Option.isSome_iff_exists.mp h
    have : i ∈ segReqIdxs q := by
      rw [segReqIdxs, List.mem_filterMap]
      exact ⟨x, hx, hi⟩
    rw [hseg] at this
    exact absurd this (List.not_mem_nil i)
  · exact h


theorem sinksOnly_append {a b : List Event} (ha : sinksOnly a)
    (hb : sinksOnly b) : sinksOnly (a ++ b) := by
  intro x hx
  rcases List.mem_append.mp hx with h | h
  · exact ha x h
  · exact hb x h

/-- C4.  When the generated dialogue has zero segments, the
content-generated handler (with the record present and the status write
succeeding) moves the job directly to COMPLETED with no audio reference,
publishes zero `podcast.segment.audio_requested` events, creates no
tracker entry, and in every later state the job is still COMPLETED with
no tracker entry and no fan-out event ever emitted — it never stalls in
GENERATING_AUDIO_STAGE. -/
theorem c4_zero_segments_short_circuit (s : Sys) (o : Oracle)
    (l₁ l₂ : List Event) (jobId : Nat) (sm : LlmSummary)
    (dia : LlmDialogue) (uid : Nat) (hinv : Inv s)
    (hq : s.queue = l₁ ++ Event.contentGenerated jobId sm dia uid :: l₂)
    (h0 : dia.segments.getD [] = [])
    (htrk0 : s.tracker = none)
    (hfetch : o.fetchZero = some true) (hdb : o.dbOk1 = true) :
    (runHandler o (.contentGenerated jobId sm dia uid) s
      (l₁ ++ l₂)).record.status = .COMPLETED ∧
    (runHandler o (.contentGenerated jobId sm dia uid) s
      (l₁ ++ l₂)).record.audioUrl = none ∧
    (runHandler o (.contentGenerated jobId sm dia uid) s
      (l₁ ++ l₂)).tracker = none ∧
    (runHandler o (.contentGenerated jobId sm dia uid) s
      (l₁ ++ l₂)).emitted.countP (fun e => (segReqIdx e).isSome) =
      s.emitted.countP (fun e => (segReqIdx e).isSome) ∧
    (∀ s₂, Reach (runHandler o (.contentGenerated jobId sm dia uid) s
        (l₁ ++ l₂)) s₂ →
      s₂.record.status = .COMPLETED ∧ s₂.tracker = none ∧
      s₂.emitted.countP (fun e => (segReqIdx e).isSome) =
        s.emitted.countP (fun e => (segReqIdx e).isSome)) := by
  obtain ⟨h1, h2, h3, h4, h5, h6, h7, h8, h9, h10⟩ := hinv
  have hstat : s.record.status = .GENERATING_CONTENT := by
    refine h3 ?_
    rw [hq, any_mid]
    simp [isContentGen]
  have h9q := h9
  rw [hq] at h9q
  have hrest : driverCount (l₁ ++ l₂) = 0 :=
    rest_drivers h9q (by simp [isDriver])
  have hseg : segReqIdxs (l₁ ++ l₂) = [] := by
    have hs : segReqIdxs s.queue = [] := by
      by_contra hne
      rcases h4 hne with h | h <;> rw [hstat] at h <;> simp at h
    rw [hq, segReqIdxs_mid_none
      (e := .contentGenerated jobId sm dia uid) l₁ l₂ rfl] at hs
    exact hs
  have h0len : (dia.segments.getD []).length = 0 := by rw [h0]; rfl
  rw [runHandler_eq,
    handle_contentGen_zero_ok_db o jobId sm dia uid s.record s.tracker
      h0len hfetch hdb]
  have hcount :
      (s.emitted ++
        [Event.completed jobId
          { s.record with status := .COMPLETED, audioUrl := none }]).countP
        (fun e => (segReqIdx e).isSome) =
      s.emitted.countP (fun e => (segReqIdx e).isSome) := by
    rw [List.countP_append]
    simp [List.countP_cons, segReqIdx]
  have hsinks : sinksOnly ((l₁ ++ l₂) ++
      [Event.completed jobId
        { s.record with status := .COMPLETED, audioUrl := none }]) := by
    refine sinksOnly_append (sinksOnly_of_no_active hrest hseg) ?_
    intro x hx
    rw [List.mem_singleton] at hx
    rw [hx]
    rfl
  refine ⟨rfl, rfl, htrk0, hcount, ?_⟩
  intro s₂ hreach
  obtain ⟨hrec, htck, hemit, _⟩ := reach_frozen hsinks hreach
  refine ⟨?_, ?_, ?_⟩
  · rw [hrec]
  · rw [htck]
    exact htrk0
  · rw [hemit]
    exact hcount

/-- Concrete state for the C4 witness: a job in GENERATING_CONTENT whose
dialogue came back with an empty segment list. -/
def c4Start : Sys :=
  { record := { initRecord 1 42 "https://example.com" .RETAIN with
      status := .GENERATING_CONTENT }
    tracker := none
    queue := [.contentGenerated 1 ⟨some "T", some "S"⟩ ⟨some []⟩ 42]
    emitted := [] }

/-- C4 witness: the theorem at a concrete zero-segment job. -/
theorem c4_zero_segments_short_circuit_witness :
    (runHandler okOracle
      (.contentGenerated 1 ⟨some "T", some "S"⟩ ⟨some []⟩ 42) c4Start
      ([] ++ [])).record.status = .COMPLETED ∧
    (runHandler okOracle
      (.contentGenerated 1 ⟨some "T", some "S"⟩ ⟨some []⟩ 42) c4Start
      ([] ++ [])).record.audioUrl = none ∧
    (runHandler okOracle
      (.contentGenerated 1 ⟨some "T", some "S"⟩ ⟨some []⟩ 42) c4Start
      ([] ++ [])).tracker = none ∧
    (runHandler okOracle
      (.contentGenerated 1 ⟨some "T", some "S"⟩ ⟨some []⟩ 42) c4Start
      ([] ++ [])).emitted.countP (fun e => (segReqIdx e).isSome) =
      c4Start.emitted.countP (fun e => (segReqIdx e).isSome) ∧
    (∀ s₂, Reach (runHandler okOracle
        (.contentGenerated 1 ⟨some "T", some "S"⟩ ⟨some []⟩ 42) c4Start
        ([] ++ [])) s₂ →
      s₂.record.status = .COMPLETED ∧ s₂.tracker = none ∧
      s₂.emitted.countP (fun e => (segReqIdx e).isSome) =
        c4Start.emitted.countP (fun e => (segReqIdx e).isSome)) :=
  c4_zero_segments_short_circuit c4Start okOracle [] [] 1
    ⟨some "T", some "S"⟩ ⟨some []⟩ 42 (by decide) rfl (by decide) rfl
    (by decide) (by decide)

/-- C5 (amended).  When the dialogue-generation output omits the
`segments` field entirely, the content-generated listener treats it as an
empty segment list (`dialogue?.segments ?? []`): zero segment events are
published and, with the record present and the status write succeeding,
the job completes early with status COMPLETED — it does **not** end
FAILED and `errorStep` is left untouched. -/
theorem c5_missing_segments_completes (s : Sys) (o : Oracle)
    (l₁ l₂ : List Event) (jobId : Nat) (sm : LlmSummary)
    (dia : LlmDialogue) (uid : Nat) (_hinv : Inv s)
    (_hq : s.queue = l₁ ++ Event.contentGenerated jobId sm dia uid :: l₂)
    (h0 : dia.segments = none)
    (hfetch : o.fetchZero = some true) (hdb : o.dbOk1 = true) :
    (runHandler o (.contentGenerated jobId sm dia uid) s
      (l₁ ++ l₂)).record.status = .COMPLETED ∧
    (runHandler o (.contentGenerated jobId sm dia uid) s
      (l₁ ++ l₂)).record.status ≠ .FAILED ∧
    (runHandler o (.contentGenerated jobId sm dia uid) s
      (l₁ ++ l₂)).record.errorStep = s.record.errorStep ∧
    (runHandler o (.contentGenerated jobId sm dia uid) s
      (l₁ ++ l₂)).emitted.countP (fun e => (segReqIdx e).isSome) =
      s.emitted.countP (fun e => (segReqIdx e).isSome) := by
  have h0len : (dia.segments.getD []).length = 0 := by rw [h0]; rfl
  rw [runHandler_eq,
    handle_contentGen_zero_ok_db o jobId sm dia uid s.record s.tracker
      h0len hfetch hdb]
  refine ⟨rfl, by simp, rfl, ?_⟩
  rw [List.countP_append]
  simp [List.countP_cons, segReqIdx]

/-- Oracle for the C5 run: both LLM calls succeed but the dialogue JSON
has no `segments` field. -/
def c5Oracle : Oracle :=
  { okOracle with llm := some (⟨some "T", some "S"⟩, ⟨none⟩) }

/-- The job right after scraping, about to run dialogue generation. -/
def c5Start : Sys :=
  { record := { initRecord 1 7 "https://example.com" .RETAIN with
      status := .SCRAPING }
    tracker := none
    queue := [.scraped 1 "T" "body" 7 .RETAIN]
    emitted := [] }

/-- After the scraped handler: content persisted, content event queued. -/
def c5Mid : Sys :=
  runHandler c5Oracle (.scraped 1 "T" "body" 7 .RETAIN) c5Start []

/-- After the content-generated handler. -/
def c5End : Sys :=
  runHandler c5Oracle
    (.contentGenerated 1 ⟨some "T", some "S"⟩ ⟨none⟩ 7) c5Mid []

/-- C5 counterexample to the claim as stated: dialogue generation that
omits `segments` leads (on the nominal path) to a job that ends
COMPLETED with no errorStep — not FAILED with
errorStep=GENERATING_CONTENT — while zero segment events are
published. -/
theorem c5_counterexample :
    c5Mid.queue =
      [Event.contentGenerated 1 ⟨some "T", some "S"⟩ ⟨none⟩ 7] ∧
    c5End.record.status = .COMPLETED ∧
    c5End.record.status ≠ .FAILED ∧
    c5End.record.errorStep = none ∧
    c5End.emitted.countP (fun e => (segReqIdx e).isSome) = 0 := by decide

/-- C5 witness: the amended theorem at the same concrete job. -/
theorem c5_missing_segments_completes_witness :
    (runHandler c5Oracle
      (.contentGenerated 1 ⟨some "T", some "S"⟩ ⟨none⟩ 7) c5Mid
      ([] ++ [])).record.status = .COMPLETED ∧
    (runHandler c5Oracle
      (.contentGenerated 1 ⟨some "T", some "S"⟩ ⟨none⟩ 7) c5Mid
      ([] ++ [])).record.status ≠ .FAILED ∧
    (runHandler c5Oracle
      (.contentGenerated 1 ⟨some "T", some "S"⟩ ⟨none⟩ 7) c5Mid
      ([] ++ [])).record.errorStep = c5Mid.record.errorStep ∧
    (runHandler c5Oracle
      (.contentGenerated 1 ⟨some "T", some "S"⟩ ⟨none⟩ 7) c5Mid
      ([] ++ [])).emitted.countP (fun e => (segReqIdx e).isSome) =
      c5Mid.emitted.countP (fun e => (segReqIdx e).isSome) :=
  c5_missing_segments_completes c5Mid c5Oracle [] [] 1
    ⟨some "T", some "S"⟩ ⟨none⟩ 7 (by decide) rfl rfl (by decide)
    (by decide)


/-- C10.  When the `storeSegmentAudio` call that observes
`allComplete = true` cannot resolve the job's owner (`getJobUserId`
returns null), the handler emits only the per-segment notification:
`podcast.all_audio_generated` is never emitted — in every state reachable
afterwards the count of emitted `all_audio_generated` events never grows —
assembly never triggers, and the job's persisted status remains
`GENERATING_AUDIO_STAGE` forever, even though all `N` expected segment buffers
are stored in the tracker. -/
theorem c10_null_owner_stalls_job (s : Sys) (o : Oracle)
    (l₁ l₂ : List Event) (jobId idx : Nat) (txt spk : String)
    (tot uid : Nat) (st : JobStorage) (buf : Buffer) (hinv : Inv s)
    (hq : s.queue =
      l₁ ++ Event.segmentAudioRequested jobId idx txt spk tot uid :: l₂)
    (ht : s.tracker = some st)
    (htts : o.tts = some buf)
    (hu : o.userIdLookup = none)
    (hall : (storeSegmentAudio s.tracker idx buf).2 = true) :
    (∃ st', (runHandler o
        (.segmentAudioRequested jobId idx txt spk tot uid) s
        (l₁ ++ l₂)).tracker = some st' ∧
      st'.totalSegments = st.totalSegments ∧
      some st'.completedSegments.card = st.totalSegments) ∧
    (∀ s₂, Reach (runHandler o
        (.segmentAudioRequested jobId idx txt spk tot uid) s
        (l₁ ++ l₂)) s₂ →
      s₂.record.status = .GENERATING_AUDIO_STAGE ∧
      s₂.emitted.countP isAllAudio = s.emitted.countP isAllAudio) := by
  obtain ⟨h1, h2, h3, h4, h5, h6, h7, h8, h9, h10⟩ := hinv
  have hmid :
      segReqIdxs s.queue = segReqIdxs l₁ ++ idx :: segReqIdxs l₂ := by
    rw [hq]
    exact segReqIdxs_mid_some
      (e := .segmentAudioRequested jobId idx txt spk tot uid) l₁ l₂ rfl
  have hne : segReqIdxs s.queue ≠ [] := by
    rw [hmid]
    simp
  have hstat2 := h4 hne
  have hstatA : s.record.status = .GENERATING_AUDIO_STAGE := by
    rcases hstat2 with h | h
    · exact h
    · exact absurd (h6 h) (by rw [ht]; simp)
  have hnoreq : s.queue.any isRequested = false := by
    cases hh : s.queue.any isRequested with
    | false => rfl
    | true =>
      exfalso
      have hp := h1 hh
      rw [hstatA] at hp
      simp at hp
  have hnoscr : s.queue.any isScraped = false := by
    cases hh : s.queue.any isScraped with
    | false => rfl
    | true =>
      exfalso
      have hp := h2 hh
      rw [hstatA] at hp
      simp at hp
  have hnocg : s.queue.any isContentGen = false := by
    cases hh : s.queue.any isContentGen with
    | false => rfl
    | true =>
      exfalso
      have hp := h3 hh
      rw [hstatA] at hp
      simp at hp
  have hnoaa : s.queue.any isAllAudio = false := by
    cases hh : s.queue.any isAllAudio with
    | false => rfl
    | true => exact absurd (h5 hh).2 hne
  have hdropAny : ∀ p : Event → Bool, s.queue.any p = false →
      (l₁ ++ l₂).any p = false := by
    intro p h
    rw [hq, any_mid] at h
    exact (Bool.or_eq_false_iff.mp h).2
  have hrest : driverCount (l₁ ++ l₂) = 0 :=
    driverCount_zero_of_absent (hdropAny _ hnoreq) (hdropAny _ hnoscr)
      (hdropAny _ hnocg) (hdropAny _ hnoaa)
  have htrkPre : TrkOk s.tracker (segReqIdxs l₁ ++ idx :: segReqIdxs l₂) :=
    hmid ▸ h10
  rw [ht] at htrkPre
  obtain ⟨ht1, ht2, ht3, ht4, ht5⟩ := htrkPre
  obtain ⟨N, hN⟩ := Option.isSome_iff_exists.mp ht1
  rw [hN, Option.getD_some] at ht3 ht5
  have hidx_mem : idx ∈ segReqIdxs l₁ ++ idx :: segReqIdxs l₂ := by
    simp
  have hidx_nd : idx ∉ st.completedSegments := (ht3 idx hidx_mem).2
  have hcard : (insert idx st.completedSegments).card =
      st.completedSegments.card + 1 :=
    Finset.card_insert_of_not_mem hidx_nd
  have hballN : (insert idx st.completedSegments).card = N := by
    have hs := hall
    rw [ht, storeSegmentAudio_some] at hs
    simp only [hN] at hs
    exact of_decide_eq_true hs
  have hperm :
      (segReqIdxs l₁ ++ idx :: segReqIdxs l₂).Perm
        (idx :: (segReqIdxs l₁ ++ segReqIdxs l₂)) := List.perm_middle
  have hrestnil : segReqIdxs (l₁ ++ l₂) = [] := by
    rw [segReqIdxs_append]
    have hlen := hperm.length_eq
    simp only [List.length_cons] at hlen
    have : (segReqIdxs l₁ ++ segReqIdxs l₂).length = 0 := by omega
    exact List.length_eq_zero.mp this
  rw [runHandler_eq,
    handle_segReq_ok o jobId idx txt spk tot uid s.record s.tracker buf
      htts, ht, storeSegmentAudio_some]
  have hdec : decide ((insert idx st.completedSegments).card = N) = true := by
    rw [hballN]
    simp
  simp only [hN, hdec, hu]
  rw [if_pos trivial]
  have hsinks : sinksOnly ((l₁ ++ l₂) ++
      [Event.segmentAudioGenerated jobId idx tot]) := by
    refine sinksOnly_append (sinksOnly_of_no_active hrest hrestnil) ?_
    intro x hx
    rw [List.mem_singleton] at hx
    rw [hx]
    rfl
  have hcount : (s.emitted ++
      [Event.segmentAudioGenerated jobId idx tot]).countP isAllAudio =
      s.emitted.countP isAllAudio := by
    rw [List.countP_append]
    simp [List.countP_cons, isAllAudio]
  constructor
  · refine ⟨_, rfl, ?_, ?_⟩
    · rfl
    · show some (insert idx st.completedSegments).card = some N
      rw [hballN]
  · intro s₂ hreach
    obtain ⟨hrec, _, hemit, _⟩ := reach_frozen hsinks hreach
    constructor
    · rw [hrec]
      exact hstatA
    · rw [hemit]
      exact hcount

/-- Tracker and queue for the C10 witness: a single-segment job whose
only fan-out event is pending. -/
def c10Start : Sys :=
  { record := { initRecord 1 42 "https://example.com" .RETAIN with
      status := .GENERATING_AUDIO_STAGE
      jobMetadata := some ⟨1⟩ }
    tracker := some (initializeJobStorage 1)
    queue := [.segmentAudioRequested 1 0 "hello" "Host 1" 1 42]
    emitted := [] }

/-- Oracle for the C10 witness: TTS succeeds, the owner lookup returns
null. -/
def c10Oracle : Oracle :=
  { okOracle with tts := some [9], userIdLookup := none }

/-- C10 witness: the theorem at a concrete one-segment job whose final
owner lookup fails. -/
theorem c10_null_owner_stalls_job_witness :
    (∃ st', (runHandler c10Oracle
        (.segmentAudioRequested 1 0 "hello" "Host 1" 1 42) c10Start
        ([] ++ [])).tracker = some st' ∧
      st'.totalSegments = (initializeJobStorage 1).totalSegments ∧
      some st'.completedSegments.card =
        (initializeJobStorage 1).totalSegments) ∧
    (∀ s₂, Reach (runHandler c10Oracle
        (.segmentAudioRequested 1 0 "hello" "Host 1" 1 42) c10Start
        ([] ++ [])) s₂ →
      s₂.record.status = .GENERATING_AUDIO_STAGE ∧
      s₂.emitted.countP isAllAudio =
        c10Start.emitted.countP isAllAudio) :=
  c10_null_owner_stalls_job c10Start c10Oracle [] [] 1 0 "hello" "Host 1"
    1 42 (initializeJobStorage 1) [9] (by decide) rfl rfl rfl rfl
    (by decide)


end TeachGpt
